import Mathlib

/-!
# gitfeed: the news-feed renderer (`newsfeed.go`)

A shallow embedding of the event model, the twelve renderers, the avatar
encoder (`display`, `widthAndHeight`), the filter-and-print step (`output`) and
the dispatch loop of `getReceivedEvents`.

Conventions of the embedding

* Go `string` values are Lean `String`s; `len(s)` is the UTF-8 byte length.
* A Go pointer field (`*Actor`, `*Payload`, ...) is an `Option`; reading a field
  through a nil pointer is the runtime panic `Res.panic`.
* `fmt.Sprintf` with `%s`/`%v` verbs applied to strings is concatenation of the
  literal pieces of the format with the arguments, in argument order; `%d` of an
  integer is its decimal representation.
* The effects of the program are threaded through a `World`: the bytes written
  to standard output, the URLs passed to `http.Get`, and the number of calls of
  the encoder `display`.
* The network (`http.Get`), the glob matcher (`wpm.WildcardPatternMatch`) and
  the display-size configuration (the package variables `width`, `height`,
  `size`) are supplied by an `Env`.
-/

namespace Gitfeed

/-! ## Event model -/

/-- The Go struct `Actor`. -/
structure Actor where
  ID : Int
  Login : String
  DisplayLogin : String
  GravatarID : String
  URL : String
  AvatarURL : String
  deriving DecidableEq, Repr

/-- The Go struct `Repo`. -/
structure Repo where
  ID : Int
  Name : String
  URL : String
  deriving DecidableEq, Repr

/-- The Go struct `Owner`. -/
structure Owner where
  ID : Int
  Login : String
  DisplayLogin : String
  GravatarID : String
  URL : String
  AvatarURL : String
  Type_ : String
  SiteAdmin : String
  deriving DecidableEq, Repr

/-- The Go struct `Forkee`. -/
structure Forkee where
  ID : Int
  Name : String
  FullName : String
  Owner : Option Owner
  HTMLURL : String
  Description : String
  URL : String
  Fork : Bool
  ForksURL : String
  deriving DecidableEq, Repr

/-- The Go struct `PullRequest`. -/
structure PullRequest where
  Number : String
  State : String
  Title : String
  Body : String
  deriving DecidableEq, Repr

/-- The Go struct `Comment`. -/
structure Comment where
  Body : String
  deriving DecidableEq, Repr

/-- The Go struct `Issue`; `PullRequest` is the pointer field `*PullRequest`. -/
structure Issue where
  Number : String
  Title : String
  PullRequest : Option PullRequest
  deriving DecidableEq, Repr

/-- The Go struct `Member`. -/
structure Member where
  Login : String
  deriving DecidableEq, Repr

/-- The Go struct `Payload`. -/
structure Payload where
  Action : String
  Ref : String
  RefType : String
  MasterBranch : String
  Description : String
  PusherType : String
  Size : Int
  Forkee : Option Forkee
  PullRequest : Option PullRequest
  Comment : Option Comment
  Issue : Option Issue
  Member : Option Member
  deriving DecidableEq, Repr

/-- The Go struct `NewsFeed`: one parsed feed item. -/
structure NewsFeed where
  ID : String
  Type_ : String
  Actor : Option Actor
  Repo : Option Repo
  Payload : Option Payload
  Public : Bool
  CreatedAt : String
  deriving DecidableEq, Repr

/-! ## Effects -/

/-- A byte. -/
abbrev Byte := Fin 256

/-- An HTTP response body as an `io.Reader`: `ioutil.ReadAll` returns the bytes
`data` together with the error `err` (nil when `none`). -/
structure Body where
  data : List Byte
  err : Option String
  deriving DecidableEq, Repr

/-- The Go struct `http.Response`, reduced to the field the program reads. -/
structure Response where
  Body : Body
  deriving DecidableEq, Repr

/-- The pair `(res, err)` returned by `http.Get`: `res` is a pointer. -/
structure GetResult where
  res : Option Response
  err : Option String
  deriving DecidableEq, Repr

/-- The package variables `width`, `height`, `size`. -/
structure Config where
  width : String
  height : String
  size : String
  deriving DecidableEq, Repr

/-- The initial values of the package variables. -/
def defaultConfig : Config := { width := "32px", height := "32px", size := "" }

/-- What the program reads from outside. -/
structure Env where
  cfg : Config
  httpGet : String → GetResult
  WildcardPatternMatch : String → String → Bool

/-- The observable effects so far. -/
structure World where
  stdout : String
  fetched : List String
  encoded : Nat
  deriving DecidableEq, Repr

/-- The empty trace. -/
def World.init : World := { stdout := "", fetched := [], encoded := 0 }

/-- The outcome of running a piece of the program: a value, or the runtime
panic of a nil pointer dereference; both carry the effects performed. -/
inductive Res (α : Type) where
  | ok : α → World → Res α
  | panic : World → Res α
  deriving DecidableEq, Repr

/-- Effectful computations. -/
def M (α : Type) : Type := World → Res α

/-- Sequencing: a panic stops the computation. -/
def M.bind {α β : Type} (m : M α) (f : α → M β) : M β := fun w =>
  match m w with
  | Res.ok a w1 => f a w1
  | Res.panic w1 => Res.panic w1

/-- A computation without effect. -/
def M.pure {α : Type} (a : α) : M α := fun w => Res.ok a w

instance : Monad M where
  pure := M.pure
  bind := M.bind

/-- Reading through a pointer: a nil pointer panics. -/
def deref {α : Type} : Option α → M α
  | some a => M.pure a
  | none => fun w => Res.panic w

/-- The byte length `len(s)` of a Go string. -/
def len (s : String) : Nat := s.utf8ByteSize

/-- Whether `sub` occurs in `s` as a contiguous substring. -/
def Contains (s sub : String) : Prop := sub.data <:+: s.data

instance (s sub : String) : Decidable (Contains s sub) :=
  inferInstanceAs (Decidable (sub.data <:+: s.data))

/-! ## Avatar encoder -/

/-- The alphabet of `base64.StdEncoding`. -/
def encodeStd : List Char :=
  "ABCDEFGHIJKLMNOPQRSTUVWXYZabcdefghijklmnopqrstuvwxyz0123456789+/".data

/-- The character of a 6-bit value in the standard alphabet. -/
def encodeChar (v : Nat) : Char := encodeStd.getD (v % 64) 'A'

/-- The Go method `base64.StdEncoding.Encode`, on the list of source bytes:
full 3-byte groups give four characters, a remainder of one or two bytes is
padded with `=`. -/
def encodeBytes : List Byte → List Char
  | [] => []
  | [a] =>
    let val := a.val * 65536
    [encodeChar (val / 262144), encodeChar (val / 4096), '=', '=']
  | [a, b] =>
    let val := a.val * 65536 + b.val * 256
    [encodeChar (val / 262144), encodeChar (val / 4096), encodeChar (val / 64), '=']
  | a :: b :: c :: rest =>
    let val := a.val * 65536 + b.val * 256 + c.val
    encodeChar (val / 262144) :: encodeChar (val / 4096) :: encodeChar (val / 64)
      :: encodeChar val :: encodeBytes rest

/-- The Go method `base64.StdEncoding.EncodeToString`. -/
def EncodeToString (src : List Byte) : String := String.mk (encodeBytes src)

/-- The Go call `strings.SplitN(s, sep, -1)` for a one-byte separator, on the
characters of `s`: the pieces between the occurrences of `sep`. -/
def splitChars (sep : Char) : List Char → List (List Char)
  | [] => [[]]
  | c :: cs =>
    if c = sep then [] :: splitChars sep cs
    else
      match splitChars sep cs with
      | [] => [[c]]
      | p :: ps => (c :: p) :: ps

/-- The Go call `strings.SplitN(s, ",", -1)`. -/
def SplitN (s : String) : List String := (splitChars ',' s.data).map String.mk

/-- The Go function `widthAndHeight`. -/
def widthAndHeight (c : Config) : String × String :=
  let w := if c.width ≠ "" then c.width else ""
  let h := if c.height ≠ "" then c.height else ""
  if c.size ≠ "" then
    let sp := SplitN c.size
    if sp.length = 2 then (sp.getD 0 "", sp.getD 1 "") else (w, h)
  else (w, h)

/-- The Go function `display`: the error of `ioutil.ReadAll` is ignored. -/
def display (c : Config) (r : Body) : String :=
  let data := r.data
  let wh := widthAndHeight c
  let buf := "\x1b]1337;File=inline=1"
  let buf := if wh.1 ≠ "" then buf ++ ";width=" ++ wh.1 else buf
  let buf := if wh.2 ≠ "" then buf ++ ";height=" ++ wh.2 else buf
  let buf := buf ++ ":"
  let buf := buf ++ EncodeToString data
  buf ++ "\x07"

/-! ## Renderers -/

/-- Writing a string to standard output (`fmt.Printf("%s", ...)`, `fmt.Print`). -/
def writeStdout (s : String) : M Unit := fun w =>
  Res.ok () { w with stdout := w.stdout ++ s }

/-- The Go call `http.Get(url)`; the request is recorded in the trace. -/
def httpGet (env : Env) (url : String) : M GetResult := fun w =>
  Res.ok (env.httpGet url) { w with fetched := w.fetched ++ [url] }

/-- A call of the encoder `display`, recorded in the trace. -/
def callDisplay (env : Env) (r : Body) : M String := fun w =>
  Res.ok (display env.cfg r) { w with encoded := w.encoded + 1 }

/-- The Go function `getFeedBaseInfoAndPrintAvatar`. After `http.Get` the error
is printed and execution goes on; `defer res.Body.Close()` then reads `res.Body`
through the pointer `res`. -/
def getFeedBaseInfoAndPrintAvatar (env : Env) (item : NewsFeed) : M (String × String × String) := do
  let actor ← deref item.Actor
  let user := actor.Login
  let r ← deref item.Repo
  let repo := r.Name
  let avatarURL := actor.AvatarURL
  if len avatarURL > 0 then
    let g ← httpGet env avatarURL
    match g.err with
      | some e => writeStdout e
      | none => M.pure ()
    let res ← deref g.res
    let avatar ← callDisplay env res.Body
    return (user, repo, avatar)
  else
    return (user, repo, "")

/-- The Go function `PRReviewEvent`; format
`"%s reviewed pull request %s on %s\n\n \a at %v"`. -/
def PRReviewEvent (env : Env) (item : NewsFeed) : M (String × String) := do
  let (user, repo, avatar) ← getFeedBaseInfoAndPrintAvatar env item
  let payload ← deref item.Payload
  let pr ← deref payload.PullRequest
  let number := pr.Number
  return (avatar, user ++ " reviewed pull request " ++ number ++ " on " ++ repo
    ++ "\n\n \x07 at " ++ item.CreatedAt)

/-- The Go function `PREvent`; formats
`"%s opened pull request %s on %s \n %s \n %s \a at %v\n"` and
`"%s closed pull request %s on %s \n %s \a at %v\n"`. -/
def PREvent (env : Env) (item : NewsFeed) : M (String × String) := do
  let (user, repo, avatar) ← getFeedBaseInfoAndPrintAvatar env item
  let payload ← deref item.Payload
  let pr ← deref payload.PullRequest
  let state := pr.State
  let number := pr.Number
  let title := pr.Title
  let body := pr.Body
  if state = "open" then
    return (avatar, user ++ " opened pull request " ++ number ++ " on " ++ repo ++ " \n "
      ++ title ++ " \n " ++ body ++ " \x07 at " ++ item.CreatedAt ++ "\n")
  else
    return (avatar, user ++ " closed pull request " ++ number ++ " on " ++ repo ++ " \n "
      ++ title ++ " \x07 at " ++ item.CreatedAt ++ "\n")

/-- The Go function `issueCommentEvent`; format
`"%s commented on %s %s on %s \n %s \a at %v\n"`. -/
def issueCommentEvent (env : Env) (item : NewsFeed) : M (String × String) := do
  let (user, repo, avatar) ← getFeedBaseInfoAndPrintAvatar env item
  let payload ← deref item.Payload
  let issue ← deref payload.Issue
  let number := issue.Number
  let comment ← deref payload.Comment
  let body := comment.Body
  let group := if issue.PullRequest ≠ none then "pull request" else "issue"
  return (avatar, user ++ " commented on " ++ group ++ " " ++ number ++ " on " ++ repo ++ " \n "
    ++ body ++ " \x07 at " ++ item.CreatedAt ++ "\n")

/-- The Go function `issuesEvent`; format
`"%s %s issue %s on %s \n %s \a at %v\n\n"`. -/
def issuesEvent (env : Env) (item : NewsFeed) : M (String × String) := do
  let (user, repo, avatar) ← getFeedBaseInfoAndPrintAvatar env item
  let payload ← deref item.Payload
  let state := payload.Action
  let issue ← deref payload.Issue
  let number := issue.Number
  let title := issue.Title
  return (avatar, user ++ " " ++ state ++ " issue " ++ number ++ " on " ++ repo ++ " \n "
    ++ title ++ " \x07 at " ++ item.CreatedAt ++ "\n\n")

/-- The Go function `commitCommentEvent`; format
`"%s commented on %s \n %s \a at %v\n"`. -/
def commitCommentEvent (env : Env) (item : NewsFeed) : M (String × String) := do
  let (user, repo, avatar) ← getFeedBaseInfoAndPrintAvatar env item
  let payload ← deref item.Payload
  let comment ← deref payload.Comment
  let body := comment.Body
  return (avatar, user ++ " commented on " ++ repo ++ " \n " ++ body ++ " \x07 at "
    ++ item.CreatedAt ++ "\n")

/-- The Go function `watchEvent`; format `"%s starred %s \a at %v \n\n"`. -/
def watchEvent (env : Env) (item : NewsFeed) : M (String × String) := do
  let (user, repo, avatar) ← getFeedBaseInfoAndPrintAvatar env item
  return (avatar, user ++ " starred " ++ repo ++ " \x07 at " ++ item.CreatedAt ++ " \n\n")

/-- The Go function `forkEvent`; format `"%s forked %s \a at %v\n\n"`. -/
def forkEvent (env : Env) (item : NewsFeed) : M (String × String) := do
  let (user, repo, avatar) ← getFeedBaseInfoAndPrintAvatar env item
  return (avatar, user ++ " forked " ++ repo ++ " \x07 at " ++ item.CreatedAt ++ "\n\n")

/-- The Go function `deleteEvent`; format `"%s deleted branch %s at \a at %v%s\n\n"`
with the arguments `user, branch, repo, item.CreatedAt`. -/
def deleteEvent (env : Env) (item : NewsFeed) : M (String × String) := do
  let (user, repo, avatar) ← getFeedBaseInfoAndPrintAvatar env item
  let payload ← deref item.Payload
  let branch := payload.Ref
  return (avatar, user ++ " deleted branch " ++ branch ++ " at \x07 at " ++ repo
    ++ item.CreatedAt ++ "\n\n")

/-- The Go function `pushEvent`; format
`"%s pushed %d new commit(s) to %s at %s \a at %v\n\n"`. -/
def pushEvent (env : Env) (item : NewsFeed) : M (String × String) := do
  let (user, repo, avatar) ← getFeedBaseInfoAndPrintAvatar env item
  let payload ← deref item.Payload
  let size := payload.Size
  let branch := payload.Ref
  return (avatar, user ++ " pushed " ++ toString size ++ " new commit(s) to " ++ branch ++ " at "
    ++ repo ++ " \x07 at " ++ item.CreatedAt ++ "\n\n")

/-- The Go function `createEvent`; formats `"%s created %s %s \a at %v\n\n"` and
`"%s created %s %s at %s \a at %v\n\n"`. -/
def createEvent (env : Env) (item : NewsFeed) : M (String × String) := do
  let (user, repo, avatar) ← getFeedBaseInfoAndPrintAvatar env item
  let payload ← deref item.Payload
  let group := payload.RefType
  let branch := payload.Ref
  if group = "repository" then
    return (avatar, user ++ " created " ++ group ++ " " ++ repo ++ " \x07 at "
      ++ item.CreatedAt ++ "\n\n")
  else
    return (avatar, user ++ " created " ++ group ++ " " ++ branch ++ " at " ++ repo ++ " \x07 at "
      ++ item.CreatedAt ++ "\n\n")

/-- The Go function `publicEvent`; format `"%s made %s public \a at %v\n\n"`. -/
def publicEvent (env : Env) (item : NewsFeed) : M (String × String) := do
  let (user, repo, avatar) ← getFeedBaseInfoAndPrintAvatar env item
  return (avatar, user ++ " made " ++ repo ++ " public \x07 at " ++ item.CreatedAt ++ "\n\n")

/-- The Go function `memberEvent`; format
`"%s %s %s as a collaborator to %s \a at %v\n\n"`. The payload is read before the
base information is fetched. -/
def memberEvent (env : Env) (item : NewsFeed) : M (String × String) := do
  let payload ← deref item.Payload
  let action := payload.Action
  let member ← deref payload.Member
  let collab := member.Login
  let (user, repo, avatar) ← getFeedBaseInfoAndPrintAvatar env item
  return (avatar, user ++ " " ++ action ++ " " ++ collab ++ " as a collaborator to " ++ repo
    ++ " \x07 at " ++ item.CreatedAt ++ "\n\n")

/-! ## Filter, dispatch and driver -/

/-- The Go function `output`. -/
def output (env : Env) (avatar content incl excl : String) : M Unit := fun w =>
  if (decide (len excl > 0) && env.WildcardPatternMatch content ("*" ++ excl ++ "*")) ||
      (decide (len incl > 0) && !env.WildcardPatternMatch content ("*" ++ incl ++ "*")) then
    Res.ok () w
  else
    writeStdout (avatar ++ content) w

/-- The twelve type tags of the `switch` in `getReceivedEvents`. -/
def knownTags : List String :=
  ["PullRequestReviewCommentEvent", "PullRequestEvent", "IssueCommentEvent", "IssuesEvent",
   "CommitCommentEvent", "WatchEvent", "ForkEvent", "DeleteEvent", "PushEvent", "CreateEvent",
   "PublicEvent", "MemberEvent"]

/-- The `switch event` of `getReceivedEvents`: `avatar` and `content` start as the
empty string and stay so in the `default` case. -/
def dispatch (env : Env) (event : String) (item : NewsFeed) : M (String × String) :=
  if event = "PullRequestReviewCommentEvent" then PRReviewEvent env item
  else if event = "PullRequestEvent" then PREvent env item
  else if event = "IssueCommentEvent" then issueCommentEvent env item
  else if event = "IssuesEvent" then issuesEvent env item
  else if event = "CommitCommentEvent" then commitCommentEvent env item
  else if event = "WatchEvent" then watchEvent env item
  else if event = "ForkEvent" then forkEvent env item
  else if event = "DeleteEvent" then deleteEvent env item
  else if event = "PushEvent" then pushEvent env item
  else if event = "CreateEvent" then createEvent env item
  else if event = "PublicEvent" then publicEvent env item
  else if event = "MemberEvent" then memberEvent env item
  else M.pure ("", "")

/-- One iteration of the loop of `getReceivedEvents`, for the type tag `event`
read from the JSON element and the item decoded from it. -/
def processItem (env : Env) (event : String) (item : NewsFeed) (incl excl : String) : M Unit := do
  let (avatar, content) ← dispatch env event item
  output env avatar content incl excl

/-- The loop of `getReceivedEvents` over the elements of one fetched page. -/
def getReceivedEvents (env : Env) (incl excl : String) : List (String × NewsFeed) → M Unit
  | [] => M.pure ()
  | (event, item) :: rest => do
    processItem env event item incl excl
    getReceivedEvents env incl excl rest

/-- Modelled from the spec: the glob matcher of the filter, the library function
`wpm.WildcardPatternMatch`, whose code is outside the source file; a pattern with
`*` wildcards. `*` matches any sequence of characters, `?` any single character,
every other character itself. -/
def globMatch : List Char → List Char → Bool
  | [], s => s.isEmpty
  | c :: p, s =>
    if c = '*' then s.tails.any (fun t => globMatch p t)
    else
      match s with
      | [] => false
      | x :: s1 => (c = '?' || c = x) && globMatch p s1

/-- The glob matcher with the argument order of `wpm.WildcardPatternMatch(str, pattern)`. -/
def wildcardPatternMatch (str pattern : String) : Bool := globMatch pattern.data str.data

/-- An environment whose network always fails with a nil response. -/
def offlineEnv : Env :=
  { cfg := defaultConfig
    httpGet := fun _ => { res := none, err := some "dial tcp: no route to host" }
    WildcardPatternMatch := wildcardPatternMatch }

/-- An environment whose network serves the one-byte image `0xFF` for every URL. -/
def onlineEnv : Env :=
  { cfg := defaultConfig
    httpGet := fun _ => { res := some { Body := { data := [255], err := none } }, err := none }
    WildcardPatternMatch := wildcardPatternMatch }

/-- A WatchEvent item of user `alice` on `alice/demo`. -/
def aliceItem (avatarURL : String) : NewsFeed :=
  { ID := "1", Type_ := "WatchEvent"
    Actor := some { ID := 7, Login := "alice", DisplayLogin := "alice", GravatarID := "",
                    URL := "", AvatarURL := avatarURL }
    Repo := some { ID := 9, Name := "alice/demo", URL := "" }
    Payload := some { Action := "started", Ref := "", RefType := "", MasterBranch := "",
                      Description := "", PusherType := "", Size := 0, Forkee := none,
                      PullRequest := none, Comment := none, Issue := none, Member := none }
    Public := true, CreatedAt := "T" }

/-- A run of `n` newline characters. -/
def newlines (n : Nat) : String := String.mk (List.replicate n '\n')

/-- The trace after `http.Get(url)` returned the error `err` (printed when not nil). -/
def World.afterGet (w : World) (url : String) (err : Option String) : World :=
  { stdout := w.stdout ++ err.getD "", fetched := w.fetched ++ [url], encoded := w.encoded }

/-- The trace after one more call of `display`. -/
def World.afterDisplay (w : World) : World :=
  { stdout := w.stdout, fetched := w.fetched, encoded := w.encoded + 1 }

/-- Whether the avatar of an actor can be obtained without reading through a nil
response: the avatar URL is empty (nothing is fetched) or `http.Get` returns a
response. -/
def avatarAvailable (env : Env) (actor : Actor) : Bool :=
  actor.AvatarURL = "" || (env.httpGet actor.AvatarURL).res.isSome

/-- Whether the shared helper finds what it reads: actor and repo present and the
avatar available. -/
def baseOk (env : Env) (item : NewsFeed) : Bool :=
  match item.Actor, item.Repo with
  | some a, some _ => avatarAvailable env a
  | _, _ => false

/-- A feed item with no actor, no repo and no payload. -/
def bareItem (tag : String) : NewsFeed :=
  { ID := "", Type_ := tag, Actor := none, Repo := none, Payload := none, Public := false,
    CreatedAt := "" }

/-- The records of the payload that the renderer of a type tag reads. -/
def payloadRequired (event : String) (p : Payload) : Bool :=
  if event = "PullRequestReviewCommentEvent" ∨ event = "PullRequestEvent" then
    p.PullRequest.isSome
  else if event = "IssueCommentEvent" then p.Issue.isSome && p.Comment.isSome
  else if event = "IssuesEvent" then p.Issue.isSome
  else if event = "CommitCommentEvent" then p.Comment.isSome
  else if event = "MemberEvent" then p.Member.isSome
  else true

/-- The required records of an item of a type tag: actor and repo for every tag;
the payload for every tag but `WatchEvent`, `ForkEvent` and `PublicEvent`; and in
the payload the records of `payloadRequired`. -/
def requiredPresent (event : String) (item : NewsFeed) : Bool :=
  item.Actor.isSome && item.Repo.isSome &&
    (if event = "WatchEvent" ∨ event = "ForkEvent" ∨ event = "PublicEvent" then true
     else
      match item.Payload with
      | none => false
      | some p => payloadRequired event p)

/-- The two outcomes of rendering an item of a type tag: with the required
records present and the avatar available, a non-empty text that contains the
actor login and the repo name; otherwise the panic of a nil dereference. -/
def Outcome (env : Env) (event : String) (item : NewsFeed) (res : Res (String × String)) : Prop :=
  (requiredPresent event item = true ∧ baseOk env item = true ∧
    ∃ actor repo avatar text w1, item.Actor = some actor ∧ item.Repo = some repo ∧
      res = Res.ok (avatar, text) w1 ∧
      text ≠ "" ∧ Contains text actor.Login ∧ Contains text repo.Name) ∨
  ((requiredPresent event item = false ∨ baseOk env item = false) ∧ ∃ w1, res = Res.panic w1)

/-- The item with the body of its pull request replaced by `body`: an item that
differs from `item` at most in the pull request body. -/
def withPRBody (item : NewsFeed) (body : String) : NewsFeed :=
  { item with
    Payload := item.Payload.map (fun p =>
      { p with PullRequest := p.PullRequest.map (fun pr => { pr with Body := body }) }) }

/-- An item of user `bob` on `bob/lib` with the given payload records. -/
def bobItem (tag : String) (pr : Option PullRequest) (issue : Option Issue)
    (comment : Option Comment) : NewsFeed :=
  { ID := "2", Type_ := tag
    Actor := some { ID := 3, Login := "bob", DisplayLogin := "bob", GravatarID := "",
                    URL := "", AvatarURL := "" }
    Repo := some { ID := 4, Name := "bob/lib", URL := "" }
    Payload := some { Action := "created", Ref := "", RefType := "", MasterBranch := "",
                      Description := "", PusherType := "", Size := 0, Forkee := none,
                      PullRequest := pr, Comment := comment, Issue := issue, Member := none }
    Public := true, CreatedAt := "T" }

/-- An environment whose network returns a response whose body fails to be read. -/
def readErrorEnv : Env :=
  { cfg := defaultConfig
    httpGet := fun _ => { res := some { Body := { data := [], err := some "unexpected EOF" } },
                          err := none }
    WildcardPatternMatch := wildcardPatternMatch }

/-- The item with the ref of its payload replaced by `ref`: an item that differs
from `item` at most in `payload.ref`. -/
def withRef (item : NewsFeed) (ref : String) : NewsFeed :=
  { item with Payload := item.Payload.map (fun p => { p with Ref := ref }) }

/-- An item of user `bob` on `bob/lib` with the given ref type and ref. -/
def refItem (tag refType ref : String) : NewsFeed :=
  { ID := "3", Type_ := tag
    Actor := some { ID := 3, Login := "bob", DisplayLogin := "bob", GravatarID := "",
                    URL := "", AvatarURL := "" }
    Repo := some { ID := 4, Name := "bob/lib", URL := "" }
    Payload := some { Action := "", Ref := ref, RefType := refType, MasterBranch := "main",
                      Description := "", PusherType := "user", Size := 0, Forkee := none,
                      PullRequest := none, Comment := none, Issue := none, Member := none }
    Public := true, CreatedAt := "T" }

/-! ## Decoding a feed item (`json.Unmarshal` into `NewsFeed`) -/

/-- A JSON value; `int` is a number literal that is a plain integer, `float` any
other number literal, kept as its text. -/
inductive JSON where
  | null : JSON
  | bool : Bool → JSON
  | int : Int → JSON
  | float : String → JSON
  | str : String → JSON
  | arr : List JSON → JSON
  | obj : List (String × JSON) → JSON

/-- The case folding of `bytes.EqualFold` on the characters that can meet an ASCII
letter: upper case to lower case, the Kelvin sign to `k`, the long s to `s`. -/
def foldRune (c : Char) : Char :=
  if c = Char.ofNat 0x212A then 'k'
  else if c = Char.ofNat 0x017F then 's'
  else c.toLower

/-- How `encoding/json` matches the key of an object member with the name of a
struct field (the `json` tag, or the Go field name when there is no tag): equal,
or equal under case folding. -/
def keyMatches (key name : String) : Bool :=
  key = name || key.data.map foldRune = name.data.map foldRune

/-- Storing a JSON value in a `string` field: only a JSON string is stored. -/
def storeString (cur : String) : JSON → String
  | JSON.str s => s
  | _ => cur

/-- Storing a JSON value in an `int32` field: only an integer in range is stored. -/
def storeInt32 (cur : Int) : JSON → Int
  | JSON.int n => if -2147483648 ≤ n ∧ n ≤ 2147483647 then n else cur
  | _ => cur

/-- Storing a JSON value in a `bool` field. -/
def storeBool (cur : Bool) : JSON → Bool
  | JSON.bool b => b
  | _ => cur

/-- Storing a JSON value in a field that points to a struct: `null` sets the
pointer to nil; any other value allocates the struct when the pointer is nil, and
an object is then decoded into it. -/
def storePtr {α : Type} (zero : α) (dec : α → List (String × JSON) → α) (cur : Option α) :
    JSON → Option α
  | JSON.null => none
  | JSON.obj kvs => some (dec (cur.getD zero) kvs)
  | _ => some (cur.getD zero)

/-- One member of an object decoded into a `PullRequest` (no tags). -/
def PullRequest.setField (x : PullRequest) (kv : String × JSON) : PullRequest :=
  if keyMatches kv.1 "Number" then { x with Number := storeString x.Number kv.2 }
  else if keyMatches kv.1 "State" then { x with State := storeString x.State kv.2 }
  else if keyMatches kv.1 "Title" then { x with Title := storeString x.Title kv.2 }
  else if keyMatches kv.1 "Body" then { x with Body := storeString x.Body kv.2 }
  else x

/-- Decoding an object into a `PullRequest`. -/
def decodePullRequest (x : PullRequest) (kvs : List (String × JSON)) : PullRequest :=
  kvs.foldl PullRequest.setField x

/-- The zero value of `PullRequest`. -/
def PullRequest.zero : PullRequest := { Number := "", State := "", Title := "", Body := "" }

/-- One member of an object decoded into a `Comment` (no tags). -/
def Comment.setField (x : Comment) (kv : String × JSON) : Comment :=
  if keyMatches kv.1 "Body" then { x with Body := storeString x.Body kv.2 }
  else x

/-- Decoding an object into a `Comment`. -/
def decodeComment (x : Comment) (kvs : List (String × JSON)) : Comment :=
  kvs.foldl Comment.setField x

/-- The zero value of `Comment`. -/
def Comment.zero : Comment := { Body := "" }

/-- One member of an object decoded into an `Issue` (no tags: the field
`PullRequest` goes by its Go name). -/
def Issue.setField (x : Issue) (kv : String × JSON) : Issue :=
  if keyMatches kv.1 "Number" then { x with Number := storeString x.Number kv.2 }
  else if keyMatches kv.1 "Title" then { x with Title := storeString x.Title kv.2 }
  else if keyMatches kv.1 "PullRequest" then
    { x with PullRequest := storePtr PullRequest.zero decodePullRequest x.PullRequest kv.2 }
  else x

/-- Decoding an object into an `Issue`. -/
def decodeIssue (x : Issue) (kvs : List (String × JSON)) : Issue :=
  kvs.foldl Issue.setField x

/-- The zero value of `Issue`. -/
def Issue.zero : Issue := { Number := "", Title := "", PullRequest := none }

/-- One member of an object decoded into a `Member` (no tags). -/
def Member.setField (x : Member) (kv : String × JSON) : Member :=
  if keyMatches kv.1 "Login" then { x with Login := storeString x.Login kv.2 }
  else x

/-- Decoding an object into a `Member`. -/
def decodeMember (x : Member) (kvs : List (String × JSON)) : Member :=
  kvs.foldl Member.setField x

/-- The zero value of `Member`. -/
def Member.zero : Member := { Login := "" }

/-- One member of an object decoded into an `Owner`. -/
def Owner.setField (x : Owner) (kv : String × JSON) : Owner :=
  if keyMatches kv.1 "id" then { x with ID := storeInt32 x.ID kv.2 }
  else if keyMatches kv.1 "login" then { x with Login := storeString x.Login kv.2 }
  else if keyMatches kv.1 "display_login" then
    { x with DisplayLogin := storeString x.DisplayLogin kv.2 }
  else if keyMatches kv.1 "gravatar_id" then { x with GravatarID := storeString x.GravatarID kv.2 }
  else if keyMatches kv.1 "url" then { x with URL := storeString x.URL kv.2 }
  else if keyMatches kv.1 "avatar_url" then { x with AvatarURL := storeString x.AvatarURL kv.2 }
  else if keyMatches kv.1 "type" then { x with Type_ := storeString x.Type_ kv.2 }
  else if keyMatches kv.1 "site_admin" then { x with SiteAdmin := storeString x.SiteAdmin kv.2 }
  else x

/-- Decoding an object into an `Owner`. -/
def decodeOwner (x : Owner) (kvs : List (String × JSON)) : Owner :=
  kvs.foldl Owner.setField x

/-- The zero value of `Owner`. -/
def Owner.zero : Owner :=
  { ID := 0, Login := "", DisplayLogin := "", GravatarID := "", URL := "", AvatarURL := "",
    Type_ := "", SiteAdmin := "" }

/-- One member of an object decoded into a `Forkee`. -/
def Forkee.setField (x : Forkee) (kv : String × JSON) : Forkee :=
  if keyMatches kv.1 "id" then { x with ID := storeInt32 x.ID kv.2 }
  else if keyMatches kv.1 "name" then { x with Name := storeString x.Name kv.2 }
  else if keyMatches kv.1 "full_name" then { x with FullName := storeString x.FullName kv.2 }
  else if keyMatches kv.1 "owner" then
    { x with Owner := storePtr Owner.zero decodeOwner x.Owner kv.2 }
  else if keyMatches kv.1 "html_url" then { x with HTMLURL := storeString x.HTMLURL kv.2 }
  else if keyMatches kv.1 "description" then
    { x with Description := storeString x.Description kv.2 }
  else if keyMatches kv.1 "url" then { x with URL := storeString x.URL kv.2 }
  else if keyMatches kv.1 "fork" then { x with Fork := storeBool x.Fork kv.2 }
  else if keyMatches kv.1 "forks_url" then { x with ForksURL := storeString x.ForksURL kv.2 }
  else x

/-- Decoding an object into a `Forkee`. -/
def decodeForkee (x : Forkee) (kvs : List (String × JSON)) : Forkee :=
  kvs.foldl Forkee.setField x

/-- The zero value of `Forkee`. -/
def Forkee.zero : Forkee :=
  { ID := 0, Name := "", FullName := "", Owner := none, HTMLURL := "", Description := "",
    URL := "", Fork := false, ForksURL := "" }

/-- One member of an object decoded into an `Actor`. -/
def Actor.setField (x : Actor) (kv : String × JSON) : Actor :=
  if keyMatches kv.1 "id" then { x with ID := storeInt32 x.ID kv.2 }
  else if keyMatches kv.1 "login" then { x with Login := storeString x.Login kv.2 }
  else if keyMatches kv.1 "display_login" then
    { x with DisplayLogin := storeString x.DisplayLogin kv.2 }
  else if keyMatches kv.1 "gravatar_id" then { x with GravatarID := storeString x.GravatarID kv.2 }
  else if keyMatches kv.1 "url" then { x with URL := storeString x.URL kv.2 }
  else if keyMatches kv.1 "avatar_url" then { x with AvatarURL := storeString x.AvatarURL kv.2 }
  else x

/-- Decoding an object into an `Actor`. -/
def decodeActor (x : Actor) (kvs : List (String × JSON)) : Actor :=
  kvs.foldl Actor.setField x

/-- The zero value of `Actor`. -/
def Actor.zero : Actor :=
  { ID := 0, Login := "", DisplayLogin := "", GravatarID := "", URL := "", AvatarURL := "" }

/-- One member of an object decoded into a `Repo`. -/
def Repo.setField (x : Repo) (kv : String × JSON) : Repo :=
  if keyMatches kv.1 "id" then { x with ID := storeInt32 x.ID kv.2 }
  else if keyMatches kv.1 "name" then { x with Name := storeString x.Name kv.2 }
  else if keyMatches kv.1 "url" then { x with URL := storeString x.URL kv.2 }
  else x

/-- Decoding an object into a `Repo`. -/
def decodeRepo (x : Repo) (kvs : List (String × JSON)) : Repo :=
  kvs.foldl Repo.setField x

/-- The zero value of `Repo`. -/
def Repo.zero : Repo := { ID := 0, Name := "", URL := "" }

/-- One member of an object decoded into a `Payload`. -/
def Payload.setField (x : Payload) (kv : String × JSON) : Payload :=
  if keyMatches kv.1 "action" then { x with Action := storeString x.Action kv.2 }
  else if keyMatches kv.1 "ref" then { x with Ref := storeString x.Ref kv.2 }
  else if keyMatches kv.1 "ref_type" then { x with RefType := storeString x.RefType kv.2 }
  else if keyMatches kv.1 "master_branch" then
    { x with MasterBranch := storeString x.MasterBranch kv.2 }
  else if keyMatches kv.1 "description" then
    { x with Description := storeString x.Description kv.2 }
  else if keyMatches kv.1 "pusher_type" then
    { x with PusherType := storeString x.PusherType kv.2 }
  else if keyMatches kv.1 "size" then { x with Size := storeInt32 x.Size kv.2 }
  else if keyMatches kv.1 "forkee" then
    { x with Forkee := storePtr Forkee.zero decodeForkee x.Forkee kv.2 }
  else if keyMatches kv.1 "pull_request" then
    { x with PullRequest := storePtr PullRequest.zero decodePullRequest x.PullRequest kv.2 }
  else if keyMatches kv.1 "comment" then
    { x with Comment := storePtr Comment.zero decodeComment x.Comment kv.2 }
  else if keyMatches kv.1 "issue" then
    { x with Issue := storePtr Issue.zero decodeIssue x.Issue kv.2 }
  else if keyMatches kv.1 "member" then
    { x with Member := storePtr Member.zero decodeMember x.Member kv.2 }
  else x

/-- Decoding an object into a `Payload`. -/
def decodePayload (x : Payload) (kvs : List (String × JSON)) : Payload :=
  kvs.foldl Payload.setField x

/-- The zero value of `Payload`. -/
def Payload.zero : Payload :=
  { Action := "", Ref := "", RefType := "", MasterBranch := "", Description := "",
    PusherType := "", Size := 0, Forkee := none, PullRequest := none, Comment := none,
    Issue := none, Member := none }

/-- One member of an object decoded into a `NewsFeed`. -/
def NewsFeed.setField (x : NewsFeed) (kv : String × JSON) : NewsFeed :=
  if keyMatches kv.1 "id" then { x with ID := storeString x.ID kv.2 }
  else if keyMatches kv.1 "type" then { x with Type_ := storeString x.Type_ kv.2 }
  else if keyMatches kv.1 "actor" then
    { x with Actor := storePtr Actor.zero decodeActor x.Actor kv.2 }
  else if keyMatches kv.1 "repo" then
    { x with Repo := storePtr Repo.zero decodeRepo x.Repo kv.2 }
  else if keyMatches kv.1 "payload" then
    { x with Payload := storePtr Payload.zero decodePayload x.Payload kv.2 }
  else if keyMatches kv.1 "public" then { x with Public := storeBool x.Public kv.2 }
  else if keyMatches kv.1 "created_at" then { x with CreatedAt := storeString x.CreatedAt kv.2 }
  else x

/-- The zero value `NewsFeed{}`. -/
def NewsFeed.zero : NewsFeed :=
  { ID := "", Type_ := "", Actor := none, Repo := none, Payload := none, Public := false,
    CreatedAt := "" }

/-- The item after `json.Unmarshal` of a feed object into `NewsFeed{}`; the error
returned by `json.Unmarshal` is dropped, as in `getReceivedEvents`. -/
def decodeNewsFeed (kvs : List (String × JSON)) : NewsFeed :=
  kvs.foldl NewsFeed.setField NewsFeed.zero

/-- The issue object of a comment made on a pull request: it carries a
`pull_request` member. -/
def prIssueJSON : JSON :=
  JSON.obj [("number", JSON.int 8), ("title", JSON.str "Bug"),
    ("pull_request", JSON.obj [("url", JSON.str "https://api.github.com/repos/bob/lib/pulls/8")])]

/-- A feed object of type IssueCommentEvent with the given issue object. -/
def commentEventJSON (issue : JSON) : List (String × JSON) :=
  [("id", JSON.str "42"), ("type", JSON.str "IssueCommentEvent"),
   ("actor", JSON.obj [("id", JSON.int 3), ("login", JSON.str "bob"),
     ("avatar_url", JSON.str "")]),
   ("repo", JSON.obj [("id", JSON.int 4), ("name", JSON.str "bob/lib")]),
   ("payload", JSON.obj [("action", JSON.str "created"), ("issue", issue),
     ("comment", JSON.obj [("body", JSON.str "looks good")])]),
   ("public", JSON.bool true), ("created_at", JSON.str "T")]

/-- The item with the avatar URL of its actor replaced by `url`: an item that
differs from `item` at most in `actor.avatar_url`. -/
def withAvatarURL (item : NewsFeed) (url : String) : NewsFeed :=
  { item with Actor := item.Actor.map (fun a => { a with AvatarURL := url }) }

/-! ## Standard base64, stated on the bit stream -/

/-- The eight bits of a byte, most significant bit first. -/
def bitsOfByte (b : Byte) : List Nat :=
  [b.val / 128 % 2, b.val / 64 % 2, b.val / 32 % 2, b.val / 16 % 2, b.val / 8 % 2,
   b.val / 4 % 2, b.val / 2 % 2, b.val % 2]

/-- The bit stream of a byte sequence, first byte first. -/
def bitStream : List Byte → List Nat
  | [] => []
  | b :: rest => bitsOfByte b ++ bitStream rest

/-- The 6-bit groups of a bit stream, left to right, each read as a number with
its first bit most significant; a last group that is short is filled with zero
bits on the right. -/
def sextets : List Nat → List Nat
  | [] => []
  | [b5] => [32 * b5]
  | [b5, b4] => [32 * b5 + 16 * b4]
  | [b5, b4, b3] => [32 * b5 + 16 * b4 + 8 * b3]
  | [b5, b4, b3, b2] => [32 * b5 + 16 * b4 + 8 * b3 + 4 * b2]
  | [b5, b4, b3, b2, b1] => [32 * b5 + 16 * b4 + 8 * b3 + 4 * b2 + 2 * b1]
  | b5 :: b4 :: b3 :: b2 :: b1 :: b0 :: rest =>
    (32 * b5 + 16 * b4 + 8 * b3 + 4 * b2 + 2 * b1 + b0) :: sextets rest

/-- The base 64 alphabet of RFC 4648 by ranges: the values 0 to 25 are `A` to `Z`,
26 to 51 are `a` to `z`, 52 to 61 are `0` to `9`, 62 is `+` and 63 is `/`. -/
def alphabetChar (v : Nat) : Char :=
  if v < 26 then Char.ofNat (65 + v)
  else if v < 52 then Char.ofNat (97 + (v - 26))
  else if v < 62 then Char.ofNat (48 + (v - 52))
  else if v = 62 then '+'
  else '/'

/-- The characters of the 6-bit groups of a byte sequence. -/
def base64Chars (src : List Byte) : List Char := (sextets (bitStream src)).map alphabetChar

/-- Standard base64 (RFC 4648, section 4), stated on the bit stream for comparison
with the encoder `EncodeToString`: the bits of the bytes are read left to right in
6-bit groups, zero bits being added on the right of a short last group; each
group is translated to its character of the base 64 alphabet; and `=` characters
are appended until the length is a multiple of four. -/
def standardBase64 (src : List Byte) : String :=
  String.mk (base64Chars src
    ++ List.replicate ((4 - (base64Chars src).length % 4) % 4) '=')

/-! ## Evaluation on concrete inputs -/

theorem EncodeToString_foobar : EncodeToString [102, 111, 111, 98, 97, 114] = "Zm9vYmFy" := by
  decide

theorem EncodeToString_fooba : EncodeToString [102, 111, 111, 98, 97] = "Zm9vYmE=" := by
  decide

theorem EncodeToString_fo : EncodeToString [102, 111] = "Zm8=" := by
  decide

theorem SplitN_empty : SplitN "" = [""] := by
  decide

theorem SplitN_three : SplitN "a,,b" = ["a", "", "b"] := by
  decide

theorem wildcardPatternMatch_hit : wildcardPatternMatch "foo bar" "*bar*" = true := by
  decide

theorem wildcardPatternMatch_miss : wildcardPatternMatch "foo bar" "*baz*" = false := by
  decide

theorem PREvent_closed_eval :
    PREvent onlineEnv (bobItem "PullRequestEvent"
      (some { Number := "5", State := "closed", Title := "Fix", Body := "Details" }) none none)
      World.init
      = Res.ok ("", "bob closed pull request 5 on bob/lib \n Fix \x07 at T\n") World.init := by
  decide

theorem PREvent_open_eval :
    PREvent onlineEnv (bobItem "PullRequestEvent"
      (some { Number := "5", State := "open", Title := "Fix", Body := "Details" }) none none)
      World.init
      = Res.ok ("", "bob opened pull request 5 on bob/lib \n Fix \n Details \x07 at T\n")
          World.init := by
  decide

/-! ## Basic facts -/

@[simp] theorem bind_apply {α β : Type} (m : M α) (f : α → M β) (w : World) :
    (m >>= f) w = match m w with
      | Res.ok a w1 => f a w1
      | Res.panic w1 => Res.panic w1 := rfl

@[simp] theorem pure_apply {α : Type} (a : α) (w : World) : (pure a : M α) w = Res.ok a w := rfl

@[simp] theorem M_pure_apply {α : Type} (a : α) (w : World) : M.pure a w = Res.ok a w := rfl

@[simp] theorem deref_some {α : Type} (a : α) (w : World) : deref (some a) w = Res.ok a w := rfl

@[simp] theorem deref_none {α : Type} (w : World) : deref (none : Option α) w = Res.panic w := rfl

theorem len_pos_iff (s : String) : 0 < len s ↔ s ≠ "" := by
  obtain ⟨l⟩ := s
  cases l with
  | nil => simp [len, String.utf8ByteSize, String.utf8ByteSize.go]
  | cons c cs =>
    have hc := Char.utf8Size_pos c
    simp [len, String.utf8ByteSize, String.utf8ByteSize.go]
    constructor
    · intro _ h
      have h2 : c :: cs = [] := congrArg String.data h
      cases h2
    · intro _
      exact Or.inr hc

theorem infix_append_right {α : Type} {a b c : List α} (h : b <:+: c) : b <:+: a ++ c := by
  obtain ⟨s, t, rfl⟩ := h
  exact ⟨a ++ s, t, by simp⟩

theorem infix_append_left {α : Type} {a b c : List α} (h : b <:+: a) : b <:+: a ++ c := by
  obtain ⟨s, t, rfl⟩ := h
  exact ⟨s, t ++ c, by simp⟩

theorem Contains.ne_empty {s x : String} (h : Contains s x) (hx : x ≠ "") : s ≠ "" := by
  intro hs
  subst hs
  have h1 : x.data <:+: [] := h
  have h2 : x.data = [] := List.eq_nil_of_infix_nil h1
  exact hx (String.ext h2)

/-! ## The avatar encoder -/

theorem splitChars_ne_nil (sep : Char) (l : List Char) : splitChars sep l ≠ [] := by
  cases l with
  | nil => simp [splitChars]
  | cons c cs =>
    by_cases h : c = sep
    · simp [splitChars, h]
    · cases hs : splitChars sep cs <;> simp [splitChars, h, hs]

theorem splitChars_length (sep : Char) (l : List Char) :
    (splitChars sep l).length = l.count sep + 1 := by
  induction l with
  | nil => simp [splitChars]
  | cons c cs ih =>
    by_cases h : c = sep
    · subst h
      simp [splitChars, ih]
    · have hne := splitChars_ne_nil sep cs
      cases hs : splitChars sep cs with
      | nil => exact absurd hs hne
      | cons p ps =>
        rw [hs] at ih
        simp only [splitChars, h, if_false, hs]
        rw [List.count_cons_of_ne (fun e => h e.symm)]
        simpa using ih

theorem splitChars_append (sep : Char) (l rest : List Char) (h : sep ∉ l) :
    splitChars sep (l ++ sep :: rest) = l :: splitChars sep rest := by
  induction l with
  | nil => simp [splitChars]
  | cons c cs ih =>
    have hc : c ≠ sep := fun e => h (by simp [e])
    have hcs : sep ∉ cs := fun e => h (by simp [e])
    simp [splitChars, hc, ih hcs]

theorem splitChars_of_not_mem (sep : Char) (l : List Char) (h : sep ∉ l) :
    splitChars sep l = [l] := by
  induction l with
  | nil => simp [splitChars]
  | cons c cs ih =>
    have hc : c ≠ sep := fun e => h (by simp [e])
    have hcs : sep ∉ cs := fun e => h (by simp [e])
    simp [splitChars, hc, ih hcs]

theorem SplitN_pair (W H : String) (hW : ',' ∉ W.data) (hH : ',' ∉ H.data) :
    SplitN (W ++ "," ++ H) = [W, H] := by
  have hd : (W ++ "," ++ H).data = W.data ++ ',' :: H.data := by
    simp [String.data_append]
  simp [SplitN, hd, splitChars_append _ _ _ hW, splitChars_of_not_mem _ _ hH]

theorem SplitN_length (s : String) : (SplitN s).length = s.data.count ',' + 1 := by
  simp [SplitN, splitChars_length]

/-! ## The shared helper -/

theorem getFeedBaseInfoAndPrintAvatar_eq (env : Env) (item : NewsFeed) (w : World) :
    getFeedBaseInfoAndPrintAvatar env item w =
      match item.Actor with
      | none => Res.panic w
      | some actor =>
        match item.Repo with
        | none => Res.panic w
        | some repo =>
          if actor.AvatarURL = "" then Res.ok (actor.Login, repo.Name, "") w
          else
            match (env.httpGet actor.AvatarURL).res with
            | none =>
              Res.panic (w.afterGet actor.AvatarURL (env.httpGet actor.AvatarURL).err)
            | some res =>
              Res.ok (actor.Login, repo.Name, display env.cfg res.Body)
                (w.afterGet actor.AvatarURL (env.httpGet actor.AvatarURL).err).afterDisplay := by
  cases hA : item.Actor with
  | none => simp [getFeedBaseInfoAndPrintAvatar, hA]
  | some actor =>
    cases hR : item.Repo with
    | none => simp [getFeedBaseInfoAndPrintAvatar, hA, hR]
    | some repo =>
      by_cases hu : actor.AvatarURL = ""
      · have hl : ¬ 0 < len "" := by
          rw [len_pos_iff]
          simp
        simp [getFeedBaseInfoAndPrintAvatar, hA, hR, hu, hl]
      · have hl : 0 < len actor.AvatarURL := (len_pos_iff _).2 hu
        cases hres : (env.httpGet actor.AvatarURL).res <;>
          cases herr : (env.httpGet actor.AvatarURL).err <;>
          simp [getFeedBaseInfoAndPrintAvatar, hA, hR, hu, hl, httpGet, hres, herr, writeStdout,
            callDisplay, World.afterGet, World.afterDisplay]

theorem getFeedBaseInfoAndPrintAvatar_cases (env : Env) (item : NewsFeed) (w : World) :
    (baseOk env item = false ∧ ∃ w1, getFeedBaseInfoAndPrintAvatar env item w = Res.panic w1) ∨
    (baseOk env item = true ∧ ∃ actor repo avatar w1, item.Actor = some actor ∧
      item.Repo = some repo ∧
      getFeedBaseInfoAndPrintAvatar env item w = Res.ok (actor.Login, repo.Name, avatar) w1) := by
  rw [getFeedBaseInfoAndPrintAvatar_eq]
  cases hA : item.Actor with
  | none => exact Or.inl ⟨by simp [baseOk, hA], w, rfl⟩
  | some actor =>
    cases hR : item.Repo with
    | none => exact Or.inl ⟨by simp [baseOk, hA, hR], w, rfl⟩
    | some repo =>
      by_cases hu : actor.AvatarURL = ""
      · exact Or.inr ⟨by simp [baseOk, hA, hR, avatarAvailable, hu], actor, repo, "", w,
          rfl, rfl, by simp [hu]⟩
      · cases hres : (env.httpGet actor.AvatarURL).res with
        | none =>
          exact Or.inl ⟨by simp [baseOk, hA, hR, avatarAvailable, hu, hres],
            w.afterGet actor.AvatarURL (env.httpGet actor.AvatarURL).err, by simp [hu, hres]⟩
        | some res =>
          exact Or.inr ⟨by simp [baseOk, hA, hR, avatarAvailable, hu, hres], actor, repo,
            display env.cfg res.Body,
            (w.afterGet actor.AvatarURL (env.httpGet actor.AvatarURL).err).afterDisplay,
            rfl, rfl, by simp [hu, hres]⟩

/-! ## C1: the text of a WatchEvent -/

/-- C1 (as amended): for a WatchEvent item with actor login `u`, repo name `r`
and creation time `T`, every text returned by `watchEvent` is exactly
`u ++ " starred " ++ r ++ " " ++ BEL ++ " at " ++ T ++ " \n\n"`: the template puts
a space and the BEL character before `" at "` and a space before the two
trailing newlines; and the text is returned whenever the avatar is available. -/
theorem watchEvent_text (env : Env) (item : NewsFeed) (w : World) (actor : Actor) (repo : Repo)
    (hA : item.Actor = some actor) (hR : item.Repo = some repo) :
    (∀ avatar text w1, watchEvent env item w = Res.ok (avatar, text) w1 →
      text = actor.Login ++ " starred " ++ repo.Name ++ " \x07 at " ++ item.CreatedAt ++ " \n\n") ∧
    (avatarAvailable env actor = true → ∃ avatar w1, watchEvent env item w =
      Res.ok (avatar, actor.Login ++ " starred " ++ repo.Name ++ " \x07 at " ++ item.CreatedAt
        ++ " \n\n") w1) := by
  rcases getFeedBaseInfoAndPrintAvatar_cases env item w with
    ⟨hb, w1, h⟩ | ⟨hb, a, r, av, w1, hA1, hR1, h⟩
  · constructor
    · intro avatar text w2 h2
      simp [watchEvent, h] at h2
    · intro hav
      simp [baseOk, hA, hR, hav] at hb
  · rw [hA] at hA1
    rw [hR] at hR1
    cases hA1
    cases hR1
    constructor
    · intro avatar text w2 h2
      simp [watchEvent, h] at h2
      exact h2.1.2.symm
    · intro _
      exact ⟨av, w1, by simp [watchEvent, h]⟩

/-- Witness of `watchEvent_text`: the item of alice on alice/demo, avatar URL empty. -/
theorem watchEvent_text_witness :
    ∃ avatar w1, watchEvent onlineEnv (aliceItem "") World.init =
      Res.ok (avatar, "alice" ++ " starred " ++ "alice/demo" ++ " \x07 at " ++ "T" ++ " \n\n") w1 :=
  (watchEvent_text onlineEnv (aliceItem "") World.init _ _ rfl rfl).2 (by decide)

/-- C1 fails as stated: the text of alice's WatchEvent is not
`"alice starred alice/demo at T"` followed only by newlines. -/
theorem watchEvent_text_counterexample :
    watchEvent onlineEnv (aliceItem "") World.init
      = Res.ok ("", "alice starred alice/demo \x07 at T \n\n") World.init ∧
    ¬ ∃ n, "alice starred alice/demo \x07 at T \n\n"
      = "alice" ++ " starred " ++ "alice/demo" ++ " at " ++ "T" ++ newlines n := by
  refine ⟨by decide, ?_⟩
  rintro ⟨n, hn⟩
  have hd := congrArg String.data hn
  have hmem : '\x07' ∈ ("alice starred alice/demo \x07 at T \n\n").data := by decide
  rw [hd] at hmem
  simp only [String.data_append, newlines, List.mem_append, List.mem_replicate] at hmem
  rcases hmem with h | h
  · revert h
    decide
  · exact absurd h.2 (by decide)

theorem encodeBytes_length (src : List Byte) :
    (encodeBytes src).length = 4 * ((src.length + 2) / 3) := by
  induction src using encodeBytes.induct with
  | case1 => simp [encodeBytes]
  | case2 a => simp [encodeBytes]
  | case3 a b => simp [encodeBytes]
  | case4 a b c rest ih =>
    simp only [encodeBytes, List.length_cons, ih]
    omega

/-! ## The encoder is standard base64 -/

theorem standardBase64_eval :
    standardBase64 [255] = "/w==" ∧
    standardBase64 [102, 111, 111, 98, 97, 114] = "Zm9vYmFy" ∧
    standardBase64 [102, 111, 111, 98, 97] = "Zm9vYmE=" ∧
    standardBase64 [] = "" := by
  decide

theorem encodeChar_eq_alphabetChar (x : Nat) : encodeChar x = alphabetChar (x % 64) := by
  have h : ∀ v : Fin 64, encodeStd.getD v.val 'A' = alphabetChar v.val := by decide
  exact h ⟨x % 64, Nat.mod_lt _ (by decide)⟩

theorem base64Chars_group (a b c : Byte) (rest : List Byte) :
    base64Chars (a :: b :: c :: rest) =
      encodeChar ((a.val * 65536 + b.val * 256 + c.val) / 262144)
        :: encodeChar ((a.val * 65536 + b.val * 256 + c.val) / 4096)
        :: encodeChar ((a.val * 65536 + b.val * 256 + c.val) / 64)
        :: encodeChar (a.val * 65536 + b.val * 256 + c.val) :: base64Chars rest := by
  have ha := a.isLt
  have hb := b.isLt
  have hc := c.isLt
  simp only [base64Chars, bitStream, bitsOfByte, List.cons_append, List.nil_append, sextets,
    List.map_cons, encodeChar_eq_alphabetChar]
  congr 2
  · omega
  congr 2
  · omega
  congr 2
  · omega
  congr 2
  · omega

theorem encodeBytes_eq_base64 (src : List Byte) :
    encodeBytes src = base64Chars src
      ++ List.replicate ((4 - (base64Chars src).length % 4) % 4) '=' := by
  induction src using encodeBytes.induct with
  | case1 => rfl
  | case2 a =>
    have ha := a.isLt
    simp only [encodeBytes, base64Chars, bitStream, bitsOfByte, List.cons_append,
      List.nil_append, List.append_nil, sextets, List.map_cons, List.map_nil,
      encodeChar_eq_alphabetChar, List.length_cons, List.length_nil]
    have e1 : a.val * 65536 / 262144 % 64
        = 32 * (a.val / 128 % 2) + 16 * (a.val / 64 % 2) + 8 * (a.val / 32 % 2)
          + 4 * (a.val / 16 % 2) + 2 * (a.val / 8 % 2) + a.val / 4 % 2 := by omega
    have e2 : a.val * 65536 / 4096 % 64 = 32 * (a.val / 2 % 2) + 16 * (a.val % 2) := by omega
    rw [e1, e2]
    rfl
  | case3 a b =>
    have ha := a.isLt
    have hb := b.isLt
    simp only [encodeBytes, base64Chars, bitStream, bitsOfByte, List.cons_append,
      List.nil_append, List.append_nil, sextets, List.map_cons, List.map_nil,
      encodeChar_eq_alphabetChar, List.length_cons, List.length_nil]
    have e1 : (a.val * 65536 + b.val * 256) / 262144 % 64
        = 32 * (a.val / 128 % 2) + 16 * (a.val / 64 % 2) + 8 * (a.val / 32 % 2)
          + 4 * (a.val / 16 % 2) + 2 * (a.val / 8 % 2) + a.val / 4 % 2 := by omega
    have e2 : (a.val * 65536 + b.val * 256) / 4096 % 64
        = 32 * (a.val / 2 % 2) + 16 * (a.val % 2) + 8 * (b.val / 128 % 2)
          + 4 * (b.val / 64 % 2) + 2 * (b.val / 32 % 2) + b.val / 16 % 2 := by omega
    have e3 : (a.val * 65536 + b.val * 256) / 64 % 64
        = 32 * (b.val / 8 % 2) + 16 * (b.val / 4 % 2) + 8 * (b.val / 2 % 2)
          + 4 * (b.val % 2) := by omega
    rw [e1, e2, e3]
    rfl
  | case4 a b c rest ih =>
    rw [base64Chars_group]
    simp only [encodeBytes, List.cons_append, List.length_cons]
    rw [ih]
    have hl : (4 - ((base64Chars rest).length + 1 + 1 + 1 + 1) % 4) % 4
        = (4 - (base64Chars rest).length % 4) % 4 := by omega
    rw [hl]

theorem EncodeToString_eq_standardBase64 (src : List Byte) :
    EncodeToString src = standardBase64 src := by
  unfold EncodeToString standardBase64
  rw [encodeBytes_eq_base64]

/-! ## C2: the escape sequence -/

/-- C2: for every byte sequence read from the image and every configuration,
`display` returns `ESC ++ "]1337;File=inline=1"`, then `";width=" ++ w` when the
resolved width `w` is not empty, then `";height=" ++ h` when the resolved height
`h` is not empty, then `":"`, the standard base64 of the bytes (`standardBase64`,
the encoding of RFC 4648 stated on the bit stream), and BEL; with the default
configuration and the single byte `0xFF` this is
`ESC ++ "]1337;File=inline=1;width=32px;height=32px:/w==" ++ BEL`. -/
theorem display_format (c : Config) (r : Body) :
    display c r = "\x1b" ++ "]1337;File=inline=1"
      ++ (if (widthAndHeight c).1 ≠ "" then ";width=" ++ (widthAndHeight c).1 else "")
      ++ (if (widthAndHeight c).2 ≠ "" then ";height=" ++ (widthAndHeight c).2 else "")
      ++ ":" ++ standardBase64 r.data ++ "\x07" ∧
    display defaultConfig { data := [255], err := none }
      = "\x1b" ++ "]1337;File=inline=1;width=32px;height=32px:/w==" ++ "\x07" := by
  refine ⟨?_, by decide⟩
  have h0 : "\x1b" ++ "]1337;File=inline=1" = "\x1b]1337;File=inline=1" := by decide
  rw [h0, ← EncodeToString_eq_standardBase64]
  unfold display
  by_cases h1 : (widthAndHeight c).1 = "" <;> by_cases h2 : (widthAndHeight c).2 = "" <;>
    simp only [h1, h2, ne_eq, not_true_eq_false, not_false_eq_true, if_true, if_false,
      String.append_assoc, String.append_empty, String.empty_append]

/-! ## C3: the size override -/

/-- C3: when `size` is `W ++ "," ++ H` with no comma in `W` or `H` (it splits on
`","` into exactly the two components `W`, `H`), `widthAndHeight` returns
`(W, H)`; for every size string without exactly one comma (empty, no comma, three
or more components) it returns the configured width and height unchanged. Size
`"64,48"` gives width `"64"` and height `"48"` in the escape sequence, and size
`"64"` leaves the defaults `"32px"`, `"32px"`. -/
theorem widthAndHeight_size (c : Config) :
    (∀ W H : String, ',' ∉ W.data → ',' ∉ H.data → c.size = W ++ "," ++ H →
      SplitN c.size = [W, H] ∧ widthAndHeight c = (W, H)) ∧
    (c.size.data.count ',' ≠ 1 →
      (SplitN c.size).length ≠ 2 ∧ widthAndHeight c = (c.width, c.height)) ∧
    widthAndHeight { width := "32px", height := "32px", size := "64,48" } = ("64", "48") ∧
    display { width := "32px", height := "32px", size := "64,48" } { data := [255], err := none }
      = "\x1b]1337;File=inline=1;width=64;height=48:/w==\x07" ∧
    widthAndHeight { width := "32px", height := "32px", size := "64" } = ("32px", "32px") := by
  refine ⟨?_, ?_, by decide, by decide, by decide⟩
  · intro W H hW hH hs
    have hsp : SplitN c.size = [W, H] := by rw [hs]; exact SplitN_pair W H hW hH
    have hne : c.size ≠ "" := by
      intro he
      rw [he] at hsp
      have h1 : (SplitN "").length = 1 := by decide
      rw [hsp] at h1
      simp at h1
    refine ⟨hsp, ?_⟩
    simp [widthAndHeight, hne, hsp]
  · intro hc
    have hl : (SplitN c.size).length ≠ 2 := by
      rw [SplitN_length]
      omega
    refine ⟨hl, ?_⟩
    unfold widthAndHeight
    by_cases hs : c.size = "" <;> by_cases hw : c.width = "" <;> by_cases hh : c.height = "" <;>
      simp [hs, hw, hh, hl]

/-- Witness of `widthAndHeight_size`: the size string `"64,48"`. -/
theorem widthAndHeight_size_witness :
    SplitN "64,48" = ["64", "48"] ∧
    widthAndHeight { width := "32px", height := "32px", size := "64,48" } = ("64", "48") :=
  (widthAndHeight_size { width := "32px", height := "32px", size := "64,48" }).1 "64" "48"
    (by decide) (by decide) (by decide)

/-! ## C4: exclude wins -/

/-- C4: for every avatar, content and include string and every non-empty exclude
string such that the content matches the glob `"*" ++ exclude ++ "*"`, `output`
writes nothing: the trace, standard output included, is unchanged. -/
theorem output_exclude_wins (env : Env) (avatar content incl excl : String) (w : World)
    (hne : excl ≠ "") (hm : env.WildcardPatternMatch content ("*" ++ excl ++ "*") = true) :
    output env avatar content incl excl w = Res.ok () w := by
  have hl : 0 < len excl := (len_pos_iff excl).2 hne
  simp [output, hl, hm]

/-- Witness of `output_exclude_wins`: include `"foo"` and exclude `"bar"` both match. -/
theorem output_exclude_wins_witness :
    wildcardPatternMatch "foo bar" ("*" ++ "foo" ++ "*") = true ∧
    output onlineEnv "img" "foo bar" "foo" "bar" World.init = Res.ok () World.init :=
  ⟨by decide, output_exclude_wins onlineEnv "img" "foo bar" "foo" "bar" World.init (by decide)
    (by decide)⟩

/-! ## C5: unknown type tags -/

/-- C5: for an item whose type tag is none of the twelve known tags, and for
every include and exclude setting, the dispatch calls no renderer (it returns the
empty avatar and the empty text whatever the item holds, without a panic), and
processing the item leaves the whole trace unchanged: nothing is fetched,
nothing is encoded, nothing is written to standard output. -/
theorem unknown_tag_no_output (env : Env) (event : String) (item : NewsFeed)
    (incl excl : String) (w : World) (h : event ∉ knownTags) :
    dispatch env event item w = Res.ok ("", "") w ∧
    processItem env event item incl excl w = Res.ok () w := by
  simp only [knownTags, List.mem_cons, List.mem_singleton, not_or, List.mem_nil_iff,
    not_false_eq_true, and_true] at h
  obtain ⟨h1, h2, h3, h4, h5, h6, h7, h8, h9, h10, h11, h12⟩ := h
  have hd : dispatch env event item w = Res.ok ("", "") w := by
    simp [dispatch, h1, h2, h3, h4, h5, h6, h7, h8, h9, h10, h11, h12]
  refine ⟨hd, ?_⟩
  simp only [processItem, bind_apply, hd]
  simp only [output, writeStdout, String.append_empty]
  split <;> rfl

/-- Witness of `unknown_tag_no_output`: a `GollumEvent` item with no records at all. -/
theorem unknown_tag_no_output_witness :
    dispatch offlineEnv "GollumEvent" (bareItem "GollumEvent") World.init
      = Res.ok ("", "") World.init ∧
    processItem offlineEnv "GollumEvent" (bareItem "GollumEvent") "foo" "" World.init
      = Res.ok () World.init :=
  unknown_tag_no_output offlineEnv "GollumEvent" (bareItem "GollumEvent") "foo" "" World.init
    (by decide)

/-! ## The outcome of each renderer -/

theorem append_ne_empty_right (s t : String) (h : t ≠ "") : s ++ t ≠ "" := by
  intro he
  have hd := congrArg String.data he
  rw [String.data_append] at hd
  have h2 : t.data = [] := (List.append_eq_nil.1 hd).2
  exact h (String.ext h2)

theorem append_ne_empty_left (s t : String) (h : s ≠ "") : s ++ t ≠ "" := by
  intro he
  have hd := congrArg String.data he
  rw [String.data_append] at hd
  have h2 : s.data = [] := (List.append_eq_nil.1 hd).1
  exact h (String.ext h2)

theorem PRReviewEvent_outcome (env : Env) (item : NewsFeed) (w : World) :
    Outcome env "PullRequestReviewCommentEvent" item (PRReviewEvent env item w) := by
  rcases getFeedBaseInfoAndPrintAvatar_cases env item w with
    ⟨hb, w1, hg⟩ | ⟨hb, a, r, av, w1, hA, hR, hg⟩
  · cases hP : item.Payload with
    | none => simp [Outcome, PRReviewEvent, hg, hb, requiredPresent, payloadRequired, hP]
    | some p =>
      cases hX : p.PullRequest <;>
        simp [Outcome, PRReviewEvent, hg, hb, requiredPresent, payloadRequired, hP, hX]
  · cases hP : item.Payload with
    | none => simp [Outcome, PRReviewEvent, hg, hb, requiredPresent, payloadRequired, hA, hR, hP]
    | some p =>
      cases hX : p.PullRequest <;>
        simp [Outcome, PRReviewEvent, hg, hb, requiredPresent, payloadRequired, hA, hR, hP, hX]
      refine ⟨_, _, ⟨rfl, rfl⟩, ?_, ?_, ?_⟩
      · repeat (first | exact append_ne_empty_right _ _ (by decide) | apply append_ne_empty_left)
      · simp only [Contains, String.data_append, List.append_assoc]
        repeat (first
          | exact List.infix_refl _
          | exact (List.prefix_append _ _).isInfix
          | apply infix_append_right)
      · simp only [Contains, String.data_append, List.append_assoc]
        repeat (first
          | exact List.infix_refl _
          | exact (List.prefix_append _ _).isInfix
          | apply infix_append_right)

theorem issueCommentEvent_outcome (env : Env) (item : NewsFeed) (w : World) :
    Outcome env "IssueCommentEvent" item (issueCommentEvent env item w) := by
  rcases getFeedBaseInfoAndPrintAvatar_cases env item w with
    ⟨hb, w1, hg⟩ | ⟨hb, a, r, av, w1, hA, hR, hg⟩
  · cases hP : item.Payload with
    | none => simp [Outcome, issueCommentEvent, hg, hb, requiredPresent, payloadRequired, hP]
    | some p =>
      cases hI : p.Issue <;> cases hC : p.Comment <;>
        simp [Outcome, issueCommentEvent, hg, hb, requiredPresent, payloadRequired, hP, hI, hC]
  · cases hP : item.Payload with
    | none => simp [Outcome, issueCommentEvent, hg, hb, requiredPresent, payloadRequired, hA, hR, hP]
    | some p =>
      cases hI : p.Issue <;> cases hC : p.Comment <;>
        simp [Outcome, issueCommentEvent, hg, hb, requiredPresent, payloadRequired, hA, hR, hP, hI, hC]
      refine ⟨_, _, ⟨rfl, rfl⟩, ?_, ?_, ?_⟩
      · repeat (first | exact append_ne_empty_right _ _ (by decide) | apply append_ne_empty_left)
      · simp only [Contains, String.data_append, List.append_assoc]
        repeat (first
          | exact List.infix_refl _
          | exact (List.prefix_append _ _).isInfix
          | apply infix_append_right)
      · simp only [Contains, String.data_append, List.append_assoc]
        repeat (first
          | exact List.infix_refl _
          | exact (List.prefix_append _ _).isInfix
          | apply infix_append_right)

theorem issuesEvent_outcome (env : Env) (item : NewsFeed) (w : World) :
    Outcome env "IssuesEvent" item (issuesEvent env item w) := by
  rcases getFeedBaseInfoAndPrintAvatar_cases env item w with
    ⟨hb, w1, hg⟩ | ⟨hb, a, r, av, w1, hA, hR, hg⟩
  · cases hP : item.Payload with
    | none => simp [Outcome, issuesEvent, hg, hb, requiredPresent, payloadRequired, hP]
    | some p =>
      cases hI : p.Issue <;>
        simp [Outcome, issuesEvent, hg, hb, requiredPresent, payloadRequired, hP, hI]
  · cases hP : item.Payload with
    | none => simp [Outcome, issuesEvent, hg, hb, requiredPresent, payloadRequired, hA, hR, hP]
    | some p =>
      cases hI : p.Issue <;>
        simp [Outcome, issuesEvent, hg, hb, requiredPresent, payloadRequired, hA, hR, hP, hI]
      refine ⟨_, _, ⟨rfl, rfl⟩, ?_, ?_, ?_⟩
      · repeat (first | exact append_ne_empty_right _ _ (by decide) | apply append_ne_empty_left)
      · simp only [Contains, String.data_append, List.append_assoc]
        repeat (first
          | exact List.infix_refl _
          | exact (List.prefix_append _ _).isInfix
          | apply infix_append_right)
      · simp only [Contains, String.data_append, List.append_assoc]
        repeat (first
          | exact List.infix_refl _
          | exact (List.prefix_append _ _).isInfix
          | apply infix_append_right)

theorem commitCommentEvent_outcome (env : Env) (item : NewsFeed) (w : World) :
    Outcome env "CommitCommentEvent" item (commitCommentEvent env item w) := by
  rcases getFeedBaseInfoAndPrintAvatar_cases env item w with
    ⟨hb, w1, hg⟩ | ⟨hb, a, r, av, w1, hA, hR, hg⟩
  · cases hP : item.Payload with
    | none => simp [Outcome, commitCommentEvent, hg, hb, requiredPresent, payloadRequired, hP]
    | some p =>
      cases hC : p.Comment <;>
        simp [Outcome, commitCommentEvent, hg, hb, requiredPresent, payloadRequired, hP, hC]
  · cases hP : item.Payload with
    | none => simp [Outcome, commitCommentEvent, hg, hb, requiredPresent, payloadRequired, hA, hR, hP]
    | some p =>
      cases hC : p.Comment <;>
        simp [Outcome, commitCommentEvent, hg, hb, requiredPresent, payloadRequired, hA, hR, hP, hC]
      refine ⟨_, _, ⟨rfl, rfl⟩, ?_, ?_, ?_⟩
      · repeat (first | exact append_ne_empty_right _ _ (by decide) | apply append_ne_empty_left)
      · simp only [Contains, String.data_append, List.append_assoc]
        repeat (first
          | exact List.infix_refl _
          | exact (List.prefix_append _ _).isInfix
          | apply infix_append_right)
      · simp only [Contains, String.data_append, List.append_assoc]
        repeat (first
          | exact List.infix_refl _
          | exact (List.prefix_append _ _).isInfix
          | apply infix_append_right)

theorem watchEvent_outcome (env : Env) (item : NewsFeed) (w : World) :
    Outcome env "WatchEvent" item (watchEvent env item w) := by
  rcases getFeedBaseInfoAndPrintAvatar_cases env item w with
    ⟨hb, w1, hg⟩ | ⟨hb, a, r, av, w1, hA, hR, hg⟩
  · simp [Outcome, watchEvent, hg, hb, requiredPresent, payloadRequired]
  · simp [Outcome, watchEvent, hg, hb, requiredPresent, payloadRequired, hA, hR]
    refine ⟨_, _, ⟨rfl, rfl⟩, ?_, ?_, ?_⟩
    · repeat (first | exact append_ne_empty_right _ _ (by decide) | apply append_ne_empty_left)
    · simp only [Contains, String.data_append, List.append_assoc]
      repeat (first
        | exact List.infix_refl _
        | exact (List.prefix_append _ _).isInfix
        | apply infix_append_right)
    · simp only [Contains, String.data_append, List.append_assoc]
      repeat (first
        | exact List.infix_refl _
        | exact (List.prefix_append _ _).isInfix
        | apply infix_append_right)

theorem forkEvent_outcome (env : Env) (item : NewsFeed) (w : World) :
    Outcome env "ForkEvent" item (forkEvent env item w) := by
  rcases getFeedBaseInfoAndPrintAvatar_cases env item w with
    ⟨hb, w1, hg⟩ | ⟨hb, a, r, av, w1, hA, hR, hg⟩
  · simp [Outcome, forkEvent, hg, hb, requiredPresent, payloadRequired]
  · simp [Outcome, forkEvent, hg, hb, requiredPresent, payloadRequired, hA, hR]
    refine ⟨_, _, ⟨rfl, rfl⟩, ?_, ?_, ?_⟩
    · repeat (first | exact append_ne_empty_right _ _ (by decide) | apply append_ne_empty_left)
    · simp only [Contains, String.data_append, List.append_assoc]
      repeat (first
        | exact List.infix_refl _
        | exact (List.prefix_append _ _).isInfix
        | apply infix_append_right)
    · simp only [Contains, String.data_append, List.append_assoc]
      repeat (first
        | exact List.infix_refl _
        | exact (List.prefix_append _ _).isInfix
        | apply infix_append_right)

theorem publicEvent_outcome (env : Env) (item : NewsFeed) (w : World) :
    Outcome env "PublicEvent" item (publicEvent env item w) := by
  rcases getFeedBaseInfoAndPrintAvatar_cases env item w with
    ⟨hb, w1, hg⟩ | ⟨hb, a, r, av, w1, hA, hR, hg⟩
  · simp [Outcome, publicEvent, hg, hb, requiredPresent, payloadRequired]
  · simp [Outcome, publicEvent, hg, hb, requiredPresent, payloadRequired, hA, hR]
    refine ⟨_, _, ⟨rfl, rfl⟩, ?_, ?_, ?_⟩
    · repeat (first | exact append_ne_empty_right _ _ (by decide) | apply append_ne_empty_left)
    · simp only [Contains, String.data_append, List.append_assoc]
      repeat (first
        | exact List.infix_refl _
        | exact (List.prefix_append _ _).isInfix
        | apply infix_append_right)
    · simp only [Contains, String.data_append, List.append_assoc]
      repeat (first
        | exact List.infix_refl _
        | exact (List.prefix_append _ _).isInfix
        | apply infix_append_right)

theorem deleteEvent_outcome (env : Env) (item : NewsFeed) (w : World) :
    Outcome env "DeleteEvent" item (deleteEvent env item w) := by
  rcases getFeedBaseInfoAndPrintAvatar_cases env item w with
    ⟨hb, w1, hg⟩ | ⟨hb, a, r, av, w1, hA, hR, hg⟩
  · cases hP : item.Payload with
    | none => simp [Outcome, deleteEvent, hg, hb, requiredPresent, payloadRequired, hP]
    | some p =>
      simp [Outcome, deleteEvent, hg, hb, requiredPresent, payloadRequired, hP]
  · cases hP : item.Payload with
    | none => simp [Outcome, deleteEvent, hg, hb, requiredPresent, payloadRequired, hA, hR, hP]
    | some p =>
      simp [Outcome, deleteEvent, hg, hb, requiredPresent, payloadRequired, hA, hR, hP]
      refine ⟨_, _, ⟨rfl, rfl⟩, ?_, ?_, ?_⟩
      · repeat (first | exact append_ne_empty_right _ _ (by decide) | apply append_ne_empty_left)
      · simp only [Contains, String.data_append, List.append_assoc]
        repeat (first
          | exact List.infix_refl _
          | exact (List.prefix_append _ _).isInfix
          | apply infix_append_right)
      · simp only [Contains, String.data_append, List.append_assoc]
        repeat (first
          | exact List.infix_refl _
          | exact (List.prefix_append _ _).isInfix
          | apply infix_append_right)

theorem pushEvent_outcome (env : Env) (item : NewsFeed) (w : World) :
    Outcome env "PushEvent" item (pushEvent env item w) := by
  rcases getFeedBaseInfoAndPrintAvatar_cases env item w with
    ⟨hb, w1, hg⟩ | ⟨hb, a, r, av, w1, hA, hR, hg⟩
  · cases hP : item.Payload with
    | none => simp [Outcome, pushEvent, hg, hb, requiredPresent, payloadRequired, hP]
    | some p =>
      simp [Outcome, pushEvent, hg, hb, requiredPresent, payloadRequired, hP]
  · cases hP : item.Payload with
    | none => simp [Outcome, pushEvent, hg, hb, requiredPresent, payloadRequired, hA, hR, hP]
    | some p =>
      simp [Outcome, pushEvent, hg, hb, requiredPresent, payloadRequired, hA, hR, hP]
      refine ⟨_, _, ⟨rfl, rfl⟩, ?_, ?_, ?_⟩
      · repeat (first | exact append_ne_empty_right _ _ (by decide) | apply append_ne_empty_left)
      · simp only [Contains, String.data_append, List.append_assoc]
        repeat (first
          | exact List.infix_refl _
          | exact (List.prefix_append _ _).isInfix
          | apply infix_append_right)
      · simp only [Contains, String.data_append, List.append_assoc]
        repeat (first
          | exact List.infix_refl _
          | exact (List.prefix_append _ _).isInfix
          | apply infix_append_right)

theorem memberEvent_outcome (env : Env) (item : NewsFeed) (w : World) :
    Outcome env "MemberEvent" item (memberEvent env item w) := by
  rcases getFeedBaseInfoAndPrintAvatar_cases env item w with
    ⟨hb, w1, hg⟩ | ⟨hb, a, r, av, w1, hA, hR, hg⟩
  · cases hP : item.Payload with
    | none => simp [Outcome, memberEvent, hg, hb, requiredPresent, payloadRequired, hP]
    | some p =>
      cases hM : p.Member <;>
        simp [Outcome, memberEvent, hg, hb, requiredPresent, payloadRequired, hP, hM]
  · cases hP : item.Payload with
    | none => simp [Outcome, memberEvent, hg, hb, requiredPresent, payloadRequired, hA, hR, hP]
    | some p =>
      cases hM : p.Member <;>
        simp [Outcome, memberEvent, hg, hb, requiredPresent, payloadRequired, hA, hR, hP, hM]
      refine ⟨_, _, ⟨rfl, rfl⟩, ?_, ?_, ?_⟩
      · repeat (first | exact append_ne_empty_right _ _ (by decide) | apply append_ne_empty_left)
      · simp only [Contains, String.data_append, List.append_assoc]
        repeat (first
          | exact List.infix_refl _
          | exact (List.prefix_append _ _).isInfix
          | apply infix_append_right)
      · simp only [Contains, String.data_append, List.append_assoc]
        repeat (first
          | exact List.infix_refl _
          | exact (List.prefix_append _ _).isInfix
          | apply infix_append_right)

theorem PREvent_outcome (env : Env) (item : NewsFeed) (w : World) :
    Outcome env "PullRequestEvent" item (PREvent env item w) := by
  rcases getFeedBaseInfoAndPrintAvatar_cases env item w with
    ⟨hb, w1, hg⟩ | ⟨hb, a, r, av, w1, hA, hR, hg⟩
  · cases hP : item.Payload with
    | none => simp [Outcome, PREvent, hg, hb, requiredPresent, payloadRequired, hP]
    | some p =>
      cases hX : p.PullRequest <;>
        simp [Outcome, PREvent, hg, hb, requiredPresent, payloadRequired, hP, hX]
  · cases hP : item.Payload with
    | none => simp [Outcome, PREvent, hg, hb, requiredPresent, payloadRequired, hA, hR, hP]
    | some p =>
      cases hX : p.PullRequest with
      | none => simp [Outcome, PREvent, hg, hb, requiredPresent, payloadRequired, hA, hR, hP, hX]
      | some pr =>
      by_cases hs : pr.State = "open" <;>
        simp [Outcome, PREvent, hg, hb, requiredPresent, payloadRequired, hA, hR, hP, hX, hs]
      all_goals (
        refine ⟨_, _, ⟨rfl, rfl⟩, ?_, ?_, ?_⟩
        · repeat (first | exact append_ne_empty_right _ _ (by decide) | apply append_ne_empty_left)
        · simp only [Contains, String.data_append, List.append_assoc]
          repeat (first
            | exact List.infix_refl _
            | exact (List.prefix_append _ _).isInfix
            | apply infix_append_right)
        · simp only [Contains, String.data_append, List.append_assoc]
          repeat (first
            | exact List.infix_refl _
            | exact (List.prefix_append _ _).isInfix
            | apply infix_append_right))

theorem createEvent_outcome (env : Env) (item : NewsFeed) (w : World) :
    Outcome env "CreateEvent" item (createEvent env item w) := by
  rcases getFeedBaseInfoAndPrintAvatar_cases env item w with
    ⟨hb, w1, hg⟩ | ⟨hb, a, r, av, w1, hA, hR, hg⟩
  · cases hP : item.Payload with
    | none => simp [Outcome, createEvent, hg, hb, requiredPresent, payloadRequired, hP]
    | some p => simp [Outcome, createEvent, hg, hb, requiredPresent, payloadRequired, hP]
  · cases hP : item.Payload with
    | none => simp [Outcome, createEvent, hg, hb, requiredPresent, payloadRequired, hA, hR, hP]
    | some p =>
      by_cases hs : p.RefType = "repository" <;>
        simp [Outcome, createEvent, hg, hb, requiredPresent, payloadRequired, hA, hR, hP, hs]
      all_goals (
        refine ⟨_, _, ⟨rfl, rfl⟩, ?_, ?_, ?_⟩
        · repeat (first | exact append_ne_empty_right _ _ (by decide) | apply append_ne_empty_left)
        · simp only [Contains, String.data_append, List.append_assoc]
          repeat (first
            | exact List.infix_refl _
            | exact (List.prefix_append _ _).isInfix
            | apply infix_append_right)
        · simp only [Contains, String.data_append, List.append_assoc]
          repeat (first
            | exact List.infix_refl _
            | exact (List.prefix_append _ _).isInfix
            | apply infix_append_right))

theorem dispatch_outcome (env : Env) (event : String) (item : NewsFeed) (w : World)
    (h : event ∈ knownTags) : Outcome env event item (dispatch env event item w) := by
  simp only [knownTags, List.mem_cons, List.mem_singleton, List.mem_nil_iff, or_false] at h
  rcases h with h | h | h | h | h | h | h | h | h | h | h | h <;> subst h
  · exact PRReviewEvent_outcome env item w
  · exact PREvent_outcome env item w
  · exact issueCommentEvent_outcome env item w
  · exact issuesEvent_outcome env item w
  · exact commitCommentEvent_outcome env item w
  · exact watchEvent_outcome env item w
  · exact forkEvent_outcome env item w
  · exact deleteEvent_outcome env item w
  · exact pushEvent_outcome env item w
  · exact createEvent_outcome env item w
  · exact publicEvent_outcome env item w
  · exact memberEvent_outcome env item w

theorem getFeedBaseInfoAndPrintAvatar_congr (env : Env) (item1 item2 : NewsFeed) (w : World)
    (hA : item1.Actor = item2.Actor) (hR : item1.Repo = item2.Repo) :
    getFeedBaseInfoAndPrintAvatar env item1 w = getFeedBaseInfoAndPrintAvatar env item2 w := by
  rw [getFeedBaseInfoAndPrintAvatar_eq, getFeedBaseInfoAndPrintAvatar_eq, hA, hR]

/-! ## C6: the body of a pull request -/

/-- C6: for every PullRequestEvent item with pull_request present, every text
returned by `PREvent` contains the title and the body when the state is `"open"`;
for every other state it contains the title and is the same text (with the same
avatar and effects) for every item that differs only in the pull request body.
A text is returned whenever actor and repo are present and the avatar is
available. -/
theorem PREvent_body (env : Env) (item : NewsFeed) (w : World) (payload : Payload)
    (pr : PullRequest) (hP : item.Payload = some payload) (hX : payload.PullRequest = some pr) :
    (∀ avatar text w1, PREvent env item w = Res.ok (avatar, text) w1 →
      (pr.State = "open" → Contains text pr.Title ∧ Contains text pr.Body) ∧
      (pr.State ≠ "open" → Contains text pr.Title ∧
        ∀ body, PREvent env (withPRBody item body) w = Res.ok (avatar, text) w1)) ∧
    (baseOk env item = true → ∃ avatar text w1, PREvent env item w = Res.ok (avatar, text) w1) := by
  have hcongr : ∀ body, getFeedBaseInfoAndPrintAvatar env (withPRBody item body) w
      = getFeedBaseInfoAndPrintAvatar env item w := fun body =>
    getFeedBaseInfoAndPrintAvatar_congr env _ _ w rfl rfl
  rcases getFeedBaseInfoAndPrintAvatar_cases env item w with
    ⟨hb, w1, hg⟩ | ⟨hb, a, r, av, w1, hA, hR, hg⟩
  · constructor
    · intro avatar text w2 h2
      simp [PREvent, hg] at h2
    · intro hav
      rw [hb] at hav
      cases hav
  · constructor
    · intro avatar text w2 h2
      by_cases hs : pr.State = "open"
      · simp [PREvent, hg, hP, hX, hs] at h2
        obtain ⟨⟨_, rfl⟩, _⟩ := h2
        refine ⟨fun _ => ⟨?_, ?_⟩, fun hn => absurd hs hn⟩
        · simp only [Contains, String.data_append, List.append_assoc]
          repeat (first
            | exact List.infix_refl _
            | exact (List.prefix_append _ _).isInfix
            | apply infix_append_right)
        · simp only [Contains, String.data_append, List.append_assoc]
          repeat (first
            | exact List.infix_refl _
            | exact (List.prefix_append _ _).isInfix
            | apply infix_append_right)
      · simp [PREvent, hg, hP, hX, hs] at h2
        obtain ⟨⟨rfl, rfl⟩, rfl⟩ := h2
        refine ⟨fun ho => absurd ho hs, fun _ => ⟨?_, ?_⟩⟩
        · simp only [Contains, String.data_append, List.append_assoc]
          repeat (first
            | exact List.infix_refl _
            | exact (List.prefix_append _ _).isInfix
            | apply infix_append_right)
        · intro body
          have hg2 := hcongr body
          rw [hg] at hg2
          have hP2 : (withPRBody item body).Payload
              = some { payload with PullRequest := some { pr with Body := body } } := by
            simp [withPRBody, hP, hX]
          have hT : (withPRBody item body).CreatedAt = item.CreatedAt := rfl
          simp [PREvent, hg2, hP2, hT, hs]
    · intro _
      by_cases hs : pr.State = "open"
      · exact ⟨_, _, _, by simp [PREvent, hg, hP, hX, hs]; exact ⟨⟨rfl, rfl⟩, rfl⟩⟩
      · exact ⟨_, _, _, by simp [PREvent, hg, hP, hX, hs]; exact ⟨⟨rfl, rfl⟩, rfl⟩⟩

/-- Witness of `PREvent_body`: a closed pull request of bob. -/
theorem PREvent_body_witness :
    (∀ avatar text w1,
      PREvent onlineEnv (bobItem "PullRequestEvent"
        (some { Number := "5", State := "closed", Title := "Fix", Body := "Details" }) none none)
        World.init = Res.ok (avatar, text) w1 →
      ("closed" = "open" → Contains text "Fix" ∧ Contains text "Details") ∧
      ("closed" ≠ "open" → Contains text "Fix" ∧ ∀ body,
        PREvent onlineEnv (withPRBody (bobItem "PullRequestEvent"
          (some { Number := "5", State := "closed", Title := "Fix", Body := "Details" }) none none)
          body) World.init = Res.ok (avatar, text) w1)) ∧
    (baseOk onlineEnv (bobItem "PullRequestEvent"
        (some { Number := "5", State := "closed", Title := "Fix", Body := "Details" }) none none)
        = true →
      ∃ avatar text w1,
        PREvent onlineEnv (bobItem "PullRequestEvent"
          (some { Number := "5", State := "closed", Title := "Fix", Body := "Details" }) none none)
          World.init = Res.ok (avatar, text) w1) :=
  PREvent_body onlineEnv (bobItem "PullRequestEvent"
    (some { Number := "5", State := "closed", Title := "Fix", Body := "Details" }) none none)
    World.init _ { Number := "5", State := "closed", Title := "Fix", Body := "Details" } rfl rfl

/-! ## C7: the group word of an issue comment -/

/-- C7 fails as stated: with the pull-request reference of the issue absent, a
comment body that holds the words makes the text contain `"pull request"`. -/
theorem issueCommentEvent_group_counterexample :
    issueCommentEvent onlineEnv
      (bobItem "IssueCommentEvent" none
        (some { Number := "8", Title := "Bug", PullRequest := none })
        (some { Body := "see pull request 5" })) World.init
      = Res.ok ("", "bob commented on issue 8 on bob/lib \n see pull request 5 \x07 at T\n")
          World.init ∧
    ¬ (Contains "bob commented on issue 8 on bob/lib \n see pull request 5 \x07 at T\n"
        "pull request" ↔
      ({ Number := "8", Title := "Bug", PullRequest := none } : Issue).PullRequest ≠ none) := by
  refine ⟨by decide, ?_⟩
  intro h
  exact absurd (h.1 (by decide)) (by decide)

/-- C7 (as amended): for every IssueCommentEvent item with issue and comment
present, every text returned by `issueCommentEvent` is
`user ++ " commented on " ++ group ++ " " ++ number ++ " on " ++ repo ++ " \n " ++
body ++ " " ++ BEL ++ " at " ++ created_at ++ "\n"` where `group` is
`"pull request"` when the pull-request reference of the issue is present and
`"issue"` when it is absent; so the text contains `"pull request"` when the
reference is present and `"issue"` when it is absent. The converse direction
holds when none of the user login, issue number, repo name, comment body and
creation time contains the letter `q`: then the text contains `"pull request"`
exactly when the reference is present. A text is returned whenever actor and
repo are present and the avatar is available. -/
theorem issueCommentEvent_group (env : Env) (item : NewsFeed) (w : World) (payload : Payload)
    (issue : Issue) (comment : Comment) (hP : item.Payload = some payload)
    (hI : payload.Issue = some issue) (hC : payload.Comment = some comment) :
    (∀ avatar text w1, issueCommentEvent env item w = Res.ok (avatar, text) w1 →
      ∃ actor repo, item.Actor = some actor ∧ item.Repo = some repo ∧
        text = actor.Login ++ " commented on "
          ++ (if issue.PullRequest ≠ none then "pull request" else "issue") ++ " "
          ++ issue.Number ++ " on " ++ repo.Name ++ " \n " ++ comment.Body ++ " \x07 at "
          ++ item.CreatedAt ++ "\n" ∧
        (issue.PullRequest ≠ none → Contains text "pull request") ∧
        (issue.PullRequest = none → Contains text "issue") ∧
        ('q' ∉ actor.Login.data → 'q' ∉ issue.Number.data → 'q' ∉ repo.Name.data →
          'q' ∉ comment.Body.data → 'q' ∉ item.CreatedAt.data →
          (Contains text "pull request" ↔ issue.PullRequest ≠ none))) ∧
    (baseOk env item = true →
      ∃ avatar text w1, issueCommentEvent env item w = Res.ok (avatar, text) w1) := by
  rcases getFeedBaseInfoAndPrintAvatar_cases env item w with
    ⟨hb, w1, hg⟩ | ⟨hb, a, r, av, w1, hA, hR, hg⟩
  · constructor
    · intro avatar text w2 h2
      simp [issueCommentEvent, hg] at h2
    · intro hav
      rw [hb] at hav
      cases hav
  · constructor
    · intro avatar text w2 h2
      refine ⟨a, r, hA, hR, ?_⟩
      by_cases hpr : issue.PullRequest = none
      · simp [issueCommentEvent, hg, hP, hI, hC, hpr] at h2
        obtain ⟨⟨_, rfl⟩, _⟩ := h2
        refine ⟨by simp [hpr], fun hn => absurd hpr hn, fun _ => ?_, ?_⟩
        · simp only [Contains, String.data_append, List.append_assoc]
          repeat (first
            | exact List.infix_refl _
            | exact (List.prefix_append _ _).isInfix
            | apply infix_append_right)
        · intro h1 h2 h3 h4 h5
          constructor
          · intro hc
            exfalso
            have hq : 'q' ∈ "pull request".data := by decide
            have hm := List.IsInfix.mem hq hc
            have l1 : 'q' ∉ " commented on ".data := by decide
            have l2 : 'q' ∉ "issue".data := by decide
            have l3 : 'q' ∉ " ".data := by decide
            have l4 : 'q' ∉ " on ".data := by decide
            have l5 : 'q' ∉ " \n ".data := by decide
            have l6 : 'q' ∉ " \x07 at ".data := by decide
            have l7 : 'q' ∉ "\n".data := by decide
            simp only [String.data_append, List.mem_append] at hm
            tauto
          · intro hn
            exact absurd hpr hn
      · simp [issueCommentEvent, hg, hP, hI, hC, hpr] at h2
        obtain ⟨⟨_, rfl⟩, _⟩ := h2
        have hc : Contains (a.Login ++ " commented on " ++ "pull request" ++ " " ++ issue.Number
            ++ " on " ++ r.Name ++ " \n " ++ comment.Body ++ " \x07 at " ++ item.CreatedAt ++ "\n")
            "pull request" := by
          simp only [Contains, String.data_append, List.append_assoc]
          repeat (first
            | exact List.infix_refl _
            | exact (List.prefix_append _ _).isInfix
            | apply infix_append_right)
        refine ⟨by simp [hpr], fun _ => hc, fun hn => absurd hn hpr, ?_⟩
        intro _ _ _ _ _
        exact ⟨fun _ => hpr, fun _ => hc⟩
    · intro _
      exact ⟨_, _, _, by simp [issueCommentEvent, hg, hP, hI, hC]; exact ⟨⟨rfl, rfl⟩, rfl⟩⟩

/-- Witness of `issueCommentEvent_group`: a comment of bob on an issue that is a
pull request. -/
theorem issueCommentEvent_group_witness :
    ∃ avatar text w1, issueCommentEvent onlineEnv
      (bobItem "IssueCommentEvent" none
        (some { Number := "8", Title := "Bug",
                PullRequest := some { Number := "8", State := "open", Title := "", Body := "" } })
        (some { Body := "looks good" })) World.init = Res.ok (avatar, text) w1 :=
  (issueCommentEvent_group onlineEnv
    (bobItem "IssueCommentEvent" none
      (some { Number := "8", Title := "Bug",
              PullRequest := some { Number := "8", State := "open", Title := "", Body := "" } })
      (some { Body := "looks good" })) World.init _ _ _ rfl rfl rfl).2 (by decide)

/-! ## C8: a failed avatar fetch -/

/-- C8 (the code at the failing input): when `http.Get` of a non-empty avatar URL
returns an error with a nil response, `getFeedBaseInfoAndPrintAvatar` prints the
error and then panics on `res.Body` instead of returning an empty avatar, so
rendering and processing the item panic as well; and when the body of the
response fails to be read, the avatar returned is the escape sequence around
the bytes read (here none), not the empty string. -/
theorem avatar_fetch_failure :
    getFeedBaseInfoAndPrintAvatar offlineEnv (aliceItem "http://x/a.png") World.init
      = Res.panic { stdout := "dial tcp: no route to host", fetched := ["http://x/a.png"],
                    encoded := 0 } ∧
    watchEvent offlineEnv (aliceItem "http://x/a.png") World.init
      = Res.panic { stdout := "dial tcp: no route to host", fetched := ["http://x/a.png"],
                    encoded := 0 } ∧
    processItem offlineEnv "WatchEvent" (aliceItem "http://x/a.png") "" "" World.init
      = Res.panic { stdout := "dial tcp: no route to host", fetched := ["http://x/a.png"],
                    encoded := 0 } ∧
    getFeedBaseInfoAndPrintAvatar readErrorEnv (aliceItem "http://x/a.png") World.init
      = Res.ok ("alice", "alice/demo", "\x1b]1337;File=inline=1;width=32px;height=32px:\x07")
          { stdout := "", fetched := ["http://x/a.png"], encoded := 1 } := by
  decide

/-! ## C9: absent records -/

/-- C9 fails as stated: an IssueCommentEvent with no comment, a PullRequestEvent
with no pull_request and a WatchEvent with no actor, repo or payload each end in
the panic of a nil dereference. -/
theorem dispatch_absent_counterexample :
    dispatch onlineEnv "IssueCommentEvent"
      (bobItem "IssueCommentEvent" none
        (some { Number := "8", Title := "Bug", PullRequest := none }) none) World.init
      = Res.panic World.init ∧
    dispatch onlineEnv "PullRequestEvent" (bobItem "PullRequestEvent" none none none) World.init
      = Res.panic World.init ∧
    dispatch onlineEnv "WatchEvent" (bareItem "WatchEvent") World.init = Res.panic World.init ∧
    processItem onlineEnv "IssueCommentEvent"
      (bobItem "IssueCommentEvent" none
        (some { Number := "8", Title := "Bug", PullRequest := none }) none) "" "" World.init
      = Res.panic World.init := by
  decide

/-- C9 (as amended): for every parsed feed item of a known type tag whose avatar
is available (the avatar URL is empty or the fetch yields a response), the
renderer of the tag reads, without a nil check, the actor, the repo and the
records its tag requires (`requiredPresent`). Rendering returns exactly when all
of these are present, whichever other optional records are absent; when one of
them is absent it ends in the panic of a nil dereference. -/
theorem dispatch_returns_iff (env : Env) (event : String) (item : NewsFeed) (w : World)
    (h : event ∈ knownTags)
    (hav : ∀ actor, item.Actor = some actor → avatarAvailable env actor = true) :
    ((∃ avatar text w1, dispatch env event item w = Res.ok (avatar, text) w1) ↔
      requiredPresent event item = true) ∧
    ((∃ w1, dispatch env event item w = Res.panic w1) ↔
      requiredPresent event item = false) := by
  have hbase : requiredPresent event item = true → baseOk env item = true := by
    intro hr
    cases hA : item.Actor with
    | none => simp [requiredPresent, hA] at hr
    | some actor =>
      cases hR : item.Repo with
      | none => simp [requiredPresent, hA, hR] at hr
      | some repo => simp [baseOk, hA, hR, hav actor hA]
  rcases dispatch_outcome env event item w h with
    ⟨hr, hb, a, r, av, text, w1, _, _, hd, _⟩ | ⟨hn, w1, hd⟩
  · rw [hd]
    constructor
    · exact ⟨fun _ => hr, fun _ => ⟨av, text, w1, rfl⟩⟩
    · constructor
      · rintro ⟨w2, h2⟩
        cases h2
      · intro h2
        rw [hr] at h2
        cases h2
  · have hrf : requiredPresent event item = false := by
      rcases hn with h3 | h3
      · exact h3
      · cases hr : requiredPresent event item with
        | false => rfl
        | true =>
          rw [hbase hr] at h3
          cases h3
    rw [hd]
    constructor
    · constructor
      · rintro ⟨av, text, w2, h2⟩
        cases h2
      · intro h1
        rw [hrf] at h1
        cases h1
    · exact ⟨fun _ => hrf, fun _ => ⟨w1, rfl⟩⟩

/-- Witness of `dispatch_returns_iff`: a WatchEvent of alice, all records present,
the avatar served by the network. -/
theorem dispatch_returns_iff_witness :
    ((∃ avatar text w1,
        dispatch onlineEnv "WatchEvent" (aliceItem "http://x/a.png") World.init
          = Res.ok (avatar, text) w1) ↔
      requiredPresent "WatchEvent" (aliceItem "http://x/a.png") = true) ∧
    ((∃ w1, dispatch onlineEnv "WatchEvent" (aliceItem "http://x/a.png") World.init
        = Res.panic w1) ↔
      requiredPresent "WatchEvent" (aliceItem "http://x/a.png") = false) :=
  dispatch_returns_iff onlineEnv "WatchEvent" (aliceItem "http://x/a.png") World.init
    (by decide) (fun actor _ => by simp [avatarAvailable, onlineEnv])

/-! ## C10: login and repo name in every text -/

/-- Login and repo name in every returned text: for each of the twelve known type
tags and every item of that tag whose required records are present, every text
returned by the renderer selected by the dispatch is non-empty and contains the
actor login and the repo name as substrings; and the renderer returns such a
text whenever the avatar is available (the avatar URL is empty or the fetch
yields a response). -/
theorem dispatch_text_contains (env : Env) (event : String) (item : NewsFeed) (w : World)
    (actor : Actor) (repo : Repo) (h : event ∈ knownTags)
    (hreq : requiredPresent event item = true) (hA : item.Actor = some actor)
    (hR : item.Repo = some repo) :
    (∀ avatar text w1, dispatch env event item w = Res.ok (avatar, text) w1 →
      text ≠ "" ∧ Contains text actor.Login ∧ Contains text repo.Name) ∧
    (avatarAvailable env actor = true →
      ∃ avatar text w1, dispatch env event item w = Res.ok (avatar, text) w1 ∧
        text ≠ "" ∧ Contains text actor.Login ∧ Contains text repo.Name) := by
  rcases dispatch_outcome env event item w h with
    ⟨_, hb, a, r, av, text, w1, hA1, hR1, hd, hne, hc1, hc2⟩ | ⟨hn, w1, hd⟩
  · rw [hA] at hA1
    rw [hR] at hR1
    cases hA1
    cases hR1
    rw [hd]
    constructor
    · intro avatar text2 w2 h2
      cases h2
      exact ⟨hne, hc1, hc2⟩
    · intro _
      exact ⟨av, text, w1, rfl, hne, hc1, hc2⟩
  · rw [hd]
    constructor
    · intro avatar text2 w2 h2
      cases h2
    · intro hav
      rcases hn with h3 | h3
      · rw [hreq] at h3
        cases h3
      · simp [baseOk, hA, hR, hav] at h3

/-- Witness of `dispatch_text_contains`: the WatchEvent of alice with an avatar
served by the network. -/
theorem dispatch_text_contains_witness :
    ∃ avatar text w1,
      dispatch onlineEnv "WatchEvent" (aliceItem "http://x/a.png") World.init
        = Res.ok (avatar, text) w1 ∧
      text ≠ "" ∧ Contains text "alice" ∧ Contains text "alice/demo" :=
  (dispatch_text_contains onlineEnv "WatchEvent" (aliceItem "http://x/a.png") World.init
    _ _ (by decide) (by decide) rfl rfl).2 (by decide)

/-- C10 (the code at the failing input): a WatchEvent of alice has every required
record, yet when `http.Get` of its avatar URL returns an error with a nil
response the renderer selected by the dispatch returns no text: it ends in the
panic of `getFeedBaseInfoAndPrintAvatar` on `res.Body`. With the avatar served,
the same item renders to its text. -/
theorem dispatch_text_fetch_failure :
    requiredPresent "WatchEvent" (aliceItem "http://x/a.png") = true ∧
    dispatch offlineEnv "WatchEvent" (aliceItem "http://x/a.png") World.init
      = Res.panic { stdout := "dial tcp: no route to host", fetched := ["http://x/a.png"],
                    encoded := 0 } ∧
    dispatch onlineEnv "WatchEvent" (aliceItem "http://x/a.png") World.init
      = Res.ok ("\x1b]1337;File=inline=1;width=32px;height=32px:/w==\x07",
          "alice starred alice/demo \x07 at T \n\n")
          { stdout := "", fetched := ["http://x/a.png"], encoded := 1 } := by
  decide

/-! ## C11: the branch name of a CreateEvent -/

/-- C11: for every CreateEvent item, when `ref_type` is `"repository"` every text
returned by `createEvent` is the same text (with the same avatar and effects) for
every item that differs only in `payload.ref`, so it never includes the branch
name; when `ref_type` is `"branch"` the text contains `payload.ref` as a
substring. A text is returned whenever actor and repo are present and the avatar
is available. -/
theorem createEvent_branch (env : Env) (item : NewsFeed) (w : World) (payload : Payload)
    (hP : item.Payload = some payload) :
    (∀ avatar text w1, createEvent env item w = Res.ok (avatar, text) w1 →
      (payload.RefType = "repository" →
        ∀ ref, createEvent env (withRef item ref) w = Res.ok (avatar, text) w1) ∧
      (payload.RefType = "branch" → Contains text payload.Ref)) ∧
    (baseOk env item = true →
      ∃ avatar text w1, createEvent env item w = Res.ok (avatar, text) w1) := by
  have hcongr : ∀ ref, getFeedBaseInfoAndPrintAvatar env (withRef item ref) w
      = getFeedBaseInfoAndPrintAvatar env item w := fun ref =>
    getFeedBaseInfoAndPrintAvatar_congr env _ _ w rfl rfl
  rcases getFeedBaseInfoAndPrintAvatar_cases env item w with
    ⟨hb, w1, hg⟩ | ⟨hb, a, r, av, w1, hA, hR, hg⟩
  · constructor
    · intro avatar text w2 h2
      simp [createEvent, hg] at h2
    · intro hav
      rw [hb] at hav
      cases hav
  · constructor
    · intro avatar text w2 h2
      by_cases hs : payload.RefType = "repository"
      · simp [createEvent, hg, hP, hs] at h2
        obtain ⟨⟨rfl, rfl⟩, rfl⟩ := h2
        refine ⟨fun _ ref => ?_, fun hbr => ?_⟩
        · have hg2 := hcongr ref
          rw [hg] at hg2
          have hP2 : (withRef item ref).Payload = some { payload with Ref := ref } := by
            simp [withRef, hP]
          have hT : (withRef item ref).CreatedAt = item.CreatedAt := rfl
          simp [createEvent, hg2, hP2, hT, hs]
        · rw [hs] at hbr
          exact absurd hbr (by decide)
      · simp [createEvent, hg, hP, hs] at h2
        obtain ⟨⟨_, rfl⟩, _⟩ := h2
        refine ⟨fun hrep => absurd hrep hs, fun _ => ?_⟩
        simp only [Contains, String.data_append, List.append_assoc]
        repeat (first
          | exact List.infix_refl _
          | exact (List.prefix_append _ _).isInfix
          | apply infix_append_right)
    · intro _
      by_cases hs : payload.RefType = "repository"
      · exact ⟨_, _, _, by simp [createEvent, hg, hP, hs]; exact ⟨⟨rfl, rfl⟩, rfl⟩⟩
      · exact ⟨_, _, _, by simp [createEvent, hg, hP, hs]; exact ⟨⟨rfl, rfl⟩, rfl⟩⟩

/-- Witness of `createEvent_branch`: bob creates the branch `feature-x`. -/
theorem createEvent_branch_witness :
    ∃ avatar text w1,
      createEvent onlineEnv (refItem "CreateEvent" "branch" "feature-x") World.init
        = Res.ok (avatar, text) w1 :=
  (createEvent_branch onlineEnv (refItem "CreateEvent" "branch" "feature-x") World.init _
    rfl).2 (by decide)

theorem createEvent_branch_eval :
    createEvent onlineEnv (refItem "CreateEvent" "branch" "feature-x") World.init
      = Res.ok ("", "bob created branch feature-x at bob/lib \x07 at T\n\n") World.init ∧
    createEvent onlineEnv (refItem "CreateEvent" "repository" "") World.init
      = Res.ok ("", "bob created repository bob/lib \x07 at T\n\n") World.init := by
  decide

/-! ## Avatar and effects of a renderer come from the shared helper -/

theorem PRReviewEvent_ok_inv (env : Env) (item : NewsFeed) (w : World) (avatar text : String)
    (w1 : World) (h : PRReviewEvent env item w = Res.ok (avatar, text) w1) :
    ∃ user repo, getFeedBaseInfoAndPrintAvatar env item w = Res.ok (user, repo, avatar) w1 := by
  cases hg : getFeedBaseInfoAndPrintAvatar env item w with
  | panic w2 =>
    cases hP : item.Payload with
    | none => simp [PRReviewEvent, hg, hP] at h
    | some p =>
      cases h0 : p.PullRequest <;>
        simp [PRReviewEvent, hg, hP, h0] at h
  | ok x w2 =>
    obtain ⟨user, repo, av⟩ := x
    cases hP : item.Payload with
    | none => simp [PRReviewEvent, hg, hP] at h
    | some p =>
      cases h0 : p.PullRequest <;>
        simp [PRReviewEvent, hg, hP, h0] at h
      obtain ⟨⟨rfl, _⟩, rfl⟩ := h
      exact ⟨_, _, rfl⟩

theorem PREvent_ok_inv (env : Env) (item : NewsFeed) (w : World) (avatar text : String)
    (w1 : World) (h : PREvent env item w = Res.ok (avatar, text) w1) :
    ∃ user repo, getFeedBaseInfoAndPrintAvatar env item w = Res.ok (user, repo, avatar) w1 := by
  cases hg : getFeedBaseInfoAndPrintAvatar env item w with
  | panic w2 =>
    cases hP : item.Payload with
    | none => simp [PREvent, hg, hP] at h
    | some p =>
      cases h0 : p.PullRequest with
      | none => simp [PREvent, hg, hP, h0] at h
      | some pr =>
        by_cases hs : pr.State = "open" <;> simp [PREvent, hg, hP, h0, hs] at h
  | ok x w2 =>
    obtain ⟨user, repo, av⟩ := x
    cases hP : item.Payload with
    | none => simp [PREvent, hg, hP] at h
    | some p =>
      cases h0 : p.PullRequest with
      | none => simp [PREvent, hg, hP, h0] at h
      | some pr =>
        by_cases hs : pr.State = "open" <;> simp [PREvent, hg, hP, h0, hs] at h
        all_goals (
          obtain ⟨⟨rfl, _⟩, rfl⟩ := h
          exact ⟨_, _, rfl⟩)

theorem issueCommentEvent_ok_inv (env : Env) (item : NewsFeed) (w : World) (avatar text : String)
    (w1 : World) (h : issueCommentEvent env item w = Res.ok (avatar, text) w1) :
    ∃ user repo, getFeedBaseInfoAndPrintAvatar env item w = Res.ok (user, repo, avatar) w1 := by
  cases hg : getFeedBaseInfoAndPrintAvatar env item w with
  | panic w2 =>
    cases hP : item.Payload with
    | none => simp [issueCommentEvent, hg, hP] at h
    | some p =>
      cases h0 : p.Issue <;> cases h1 : p.Comment <;>
        simp [issueCommentEvent, hg, hP, h0, h1] at h
  | ok x w2 =>
    obtain ⟨user, repo, av⟩ := x
    cases hP : item.Payload with
    | none => simp [issueCommentEvent, hg, hP] at h
    | some p =>
      cases h0 : p.Issue <;> cases h1 : p.Comment <;>
        simp [issueCommentEvent, hg, hP, h0, h1] at h
      obtain ⟨⟨rfl, _⟩, rfl⟩ := h
      exact ⟨_, _, rfl⟩

theorem issuesEvent_ok_inv (env : Env) (item : NewsFeed) (w : World) (avatar text : String)
    (w1 : World) (h : issuesEvent env item w = Res.ok (avatar, text) w1) :
    ∃ user repo, getFeedBaseInfoAndPrintAvatar env item w = Res.ok (user, repo, avatar) w1 := by
  cases hg : getFeedBaseInfoAndPrintAvatar env item w with
  | panic w2 =>
    cases hP : item.Payload with
    | none => simp [issuesEvent, hg, hP] at h
    | some p =>
      cases h0 : p.Issue <;>
        simp [issuesEvent, hg, hP, h0] at h
  | ok x w2 =>
    obtain ⟨user, repo, av⟩ := x
    cases hP : item.Payload with
    | none => simp [issuesEvent, hg, hP] at h
    | some p =>
      cases h0 : p.Issue <;>
        simp [issuesEvent, hg, hP, h0] at h
      obtain ⟨⟨rfl, _⟩, rfl⟩ := h
      exact ⟨_, _, rfl⟩

theorem commitCommentEvent_ok_inv (env : Env) (item : NewsFeed) (w : World) (avatar text : String)
    (w1 : World) (h : commitCommentEvent env item w = Res.ok (avatar, text) w1) :
    ∃ user repo, getFeedBaseInfoAndPrintAvatar env item w = Res.ok (user, repo, avatar) w1 := by
  cases hg : getFeedBaseInfoAndPrintAvatar env item w with
  | panic w2 =>
    cases hP : item.Payload with
    | none => simp [commitCommentEvent, hg, hP] at h
    | some p =>
      cases h0 : p.Comment <;>
        simp [commitCommentEvent, hg, hP, h0] at h
  | ok x w2 =>
    obtain ⟨user, repo, av⟩ := x
    cases hP : item.Payload with
    | none => simp [commitCommentEvent, hg, hP] at h
    | some p =>
      cases h0 : p.Comment <;>
        simp [commitCommentEvent, hg, hP, h0] at h
      obtain ⟨⟨rfl, _⟩, rfl⟩ := h
      exact ⟨_, _, rfl⟩

theorem watchEvent_ok_inv (env : Env) (item : NewsFeed) (w : World) (avatar text : String)
    (w1 : World) (h : watchEvent env item w = Res.ok (avatar, text) w1) :
    ∃ user repo, getFeedBaseInfoAndPrintAvatar env item w = Res.ok (user, repo, avatar) w1 := by
  cases hg : getFeedBaseInfoAndPrintAvatar env item w with
  | panic w2 =>
    simp [watchEvent, hg] at h
  | ok x w2 =>
    obtain ⟨user, repo, av⟩ := x
    simp [watchEvent, hg] at h
    obtain ⟨⟨rfl, _⟩, rfl⟩ := h
    exact ⟨_, _, rfl⟩

theorem forkEvent_ok_inv (env : Env) (item : NewsFeed) (w : World) (avatar text : String)
    (w1 : World) (h : forkEvent env item w = Res.ok (avatar, text) w1) :
    ∃ user repo, getFeedBaseInfoAndPrintAvatar env item w = Res.ok (user, repo, avatar) w1 := by
  cases hg : getFeedBaseInfoAndPrintAvatar env item w with
  | panic w2 =>
    simp [forkEvent, hg] at h
  | ok x w2 =>
    obtain ⟨user, repo, av⟩ := x
    simp [forkEvent, hg] at h
    obtain ⟨⟨rfl, _⟩, rfl⟩ := h
    exact ⟨_, _, rfl⟩

theorem deleteEvent_ok_inv (env : Env) (item : NewsFeed) (w : World) (avatar text : String)
    (w1 : World) (h : deleteEvent env item w = Res.ok (avatar, text) w1) :
    ∃ user repo, getFeedBaseInfoAndPrintAvatar env item w = Res.ok (user, repo, avatar) w1 := by
  cases hg : getFeedBaseInfoAndPrintAvatar env item w with
  | panic w2 =>
    cases hP : item.Payload with
    | none => simp [deleteEvent, hg, hP] at h
    | some p =>
      simp [deleteEvent, hg, hP] at h
  | ok x w2 =>
    obtain ⟨user, repo, av⟩ := x
    cases hP : item.Payload with
    | none => simp [deleteEvent, hg, hP] at h
    | some p =>
      simp [deleteEvent, hg, hP] at h
      obtain ⟨⟨rfl, _⟩, rfl⟩ := h
      exact ⟨_, _, rfl⟩

theorem pushEvent_ok_inv (env : Env) (item : NewsFeed) (w : World) (avatar text : String)
    (w1 : World) (h : pushEvent env item w = Res.ok (avatar, text) w1) :
    ∃ user repo, getFeedBaseInfoAndPrintAvatar env item w = Res.ok (user, repo, avatar) w1 := by
  cases hg : getFeedBaseInfoAndPrintAvatar env item w with
  | panic w2 =>
    cases hP : item.Payload with
    | none => simp [pushEvent, hg, hP] at h
    | some p =>
      simp [pushEvent, hg, hP] at h
  | ok x w2 =>
    obtain ⟨user, repo, av⟩ := x
    cases hP : item.Payload with
    | none => simp [pushEvent, hg, hP] at h
    | some p =>
      simp [pushEvent, hg, hP] at h
      obtain ⟨⟨rfl, _⟩, rfl⟩ := h
      exact ⟨_, _, rfl⟩

theorem createEvent_ok_inv (env : Env) (item : NewsFeed) (w : World) (avatar text : String)
    (w1 : World) (h : createEvent env item w = Res.ok (avatar, text) w1) :
    ∃ user repo, getFeedBaseInfoAndPrintAvatar env item w = Res.ok (user, repo, avatar) w1 := by
  cases hg : getFeedBaseInfoAndPrintAvatar env item w with
  | panic w2 =>
    cases hP : item.Payload with
    | none => simp [createEvent, hg, hP] at h
    | some p =>
      by_cases hs : p.RefType = "repository" <;> simp [createEvent, hg, hP, hs] at h
  | ok x w2 =>
    obtain ⟨user, repo, av⟩ := x
    cases hP : item.Payload with
    | none => simp [createEvent, hg, hP] at h
    | some p =>
      by_cases hs : p.RefType = "repository" <;> simp [createEvent, hg, hP, hs] at h
      all_goals (
        obtain ⟨⟨rfl, _⟩, rfl⟩ := h
        exact ⟨_, _, rfl⟩)

theorem publicEvent_ok_inv (env : Env) (item : NewsFeed) (w : World) (avatar text : String)
    (w1 : World) (h : publicEvent env item w = Res.ok (avatar, text) w1) :
    ∃ user repo, getFeedBaseInfoAndPrintAvatar env item w = Res.ok (user, repo, avatar) w1 := by
  cases hg : getFeedBaseInfoAndPrintAvatar env item w with
  | panic w2 =>
    simp [publicEvent, hg] at h
  | ok x w2 =>
    obtain ⟨user, repo, av⟩ := x
    simp [publicEvent, hg] at h
    obtain ⟨⟨rfl, _⟩, rfl⟩ := h
    exact ⟨_, _, rfl⟩

theorem memberEvent_ok_inv (env : Env) (item : NewsFeed) (w : World) (avatar text : String)
    (w1 : World) (h : memberEvent env item w = Res.ok (avatar, text) w1) :
    ∃ user repo, getFeedBaseInfoAndPrintAvatar env item w = Res.ok (user, repo, avatar) w1 := by
  cases hg : getFeedBaseInfoAndPrintAvatar env item w with
  | panic w2 =>
    cases hP : item.Payload with
    | none => simp [memberEvent, hg, hP] at h
    | some p =>
      cases h0 : p.Member <;>
        simp [memberEvent, hg, hP, h0] at h
  | ok x w2 =>
    obtain ⟨user, repo, av⟩ := x
    cases hP : item.Payload with
    | none => simp [memberEvent, hg, hP] at h
    | some p =>
      cases h0 : p.Member <;>
        simp [memberEvent, hg, hP, h0] at h
      obtain ⟨⟨rfl, _⟩, rfl⟩ := h
      exact ⟨_, _, rfl⟩

theorem dispatch_ok_inv (env : Env) (event : String) (item : NewsFeed) (w : World)
    (avatar text : String) (w1 : World) (hk : event ∈ knownTags)
    (h : dispatch env event item w = Res.ok (avatar, text) w1) :
    ∃ user repo, getFeedBaseInfoAndPrintAvatar env item w = Res.ok (user, repo, avatar) w1 := by
  simp only [knownTags, List.mem_cons, List.mem_singleton, List.mem_nil_iff, or_false] at hk
  rcases hk with hk | hk | hk | hk | hk | hk | hk | hk | hk | hk | hk | hk <;> subst hk
  · exact PRReviewEvent_ok_inv env item w avatar text w1 h
  · exact PREvent_ok_inv env item w avatar text w1 h
  · exact issueCommentEvent_ok_inv env item w avatar text w1 h
  · exact issuesEvent_ok_inv env item w avatar text w1 h
  · exact commitCommentEvent_ok_inv env item w avatar text w1 h
  · exact watchEvent_ok_inv env item w avatar text w1 h
  · exact forkEvent_ok_inv env item w avatar text w1 h
  · exact deleteEvent_ok_inv env item w avatar text w1 h
  · exact pushEvent_ok_inv env item w avatar text w1 h
  · exact createEvent_ok_inv env item w avatar text w1 h
  · exact publicEvent_ok_inv env item w avatar text w1 h
  · exact memberEvent_ok_inv env item w avatar text w1 h

/-! ## The text of a renderer depends on login, repo name, payload and creation time only -/

theorem PRReviewEvent_transfer (env env2 : Env) (item item2 : NewsFeed) (w w1 w2 w3 : World)
    (user repo avatar avatar2 text : String)
    (h : PRReviewEvent env item w = Res.ok (avatar, text) w1)
    (hg1 : getFeedBaseInfoAndPrintAvatar env item w = Res.ok (user, repo, avatar) w1)
    (hg2 : getFeedBaseInfoAndPrintAvatar env2 item2 w2 = Res.ok (user, repo, avatar2) w3)
    (hP : item2.Payload = item.Payload) (hT : item2.CreatedAt = item.CreatedAt) :
    PRReviewEvent env2 item2 w2 = Res.ok (avatar2, text) w3 := by
  cases hPl : item.Payload with
  | none => simp [PRReviewEvent, hg1, hPl] at h
  | some p =>
    rw [hPl] at hP
    cases h0 : p.PullRequest <;> simp [PRReviewEvent, hg1, hPl, h0] at h
    all_goals simp [PRReviewEvent, hg2, hP, hT, h0, h]

theorem PREvent_transfer (env env2 : Env) (item item2 : NewsFeed) (w w1 w2 w3 : World)
    (user repo avatar avatar2 text : String)
    (h : PREvent env item w = Res.ok (avatar, text) w1)
    (hg1 : getFeedBaseInfoAndPrintAvatar env item w = Res.ok (user, repo, avatar) w1)
    (hg2 : getFeedBaseInfoAndPrintAvatar env2 item2 w2 = Res.ok (user, repo, avatar2) w3)
    (hP : item2.Payload = item.Payload) (hT : item2.CreatedAt = item.CreatedAt) :
    PREvent env2 item2 w2 = Res.ok (avatar2, text) w3 := by
  cases hPl : item.Payload with
  | none => simp [PREvent, hg1, hPl] at h
  | some p =>
    rw [hPl] at hP
    cases h0 : p.PullRequest with
    | none => simp [PREvent, hg1, hPl, h0] at h
    | some pr =>
      by_cases hs : pr.State = "open" <;> simp [PREvent, hg1, hPl, h0, hs] at h
      all_goals simp [PREvent, hg2, hP, hT, h0, hs, h]

theorem issueCommentEvent_transfer (env env2 : Env) (item item2 : NewsFeed) (w w1 w2 w3 : World)
    (user repo avatar avatar2 text : String)
    (h : issueCommentEvent env item w = Res.ok (avatar, text) w1)
    (hg1 : getFeedBaseInfoAndPrintAvatar env item w = Res.ok (user, repo, avatar) w1)
    (hg2 : getFeedBaseInfoAndPrintAvatar env2 item2 w2 = Res.ok (user, repo, avatar2) w3)
    (hP : item2.Payload = item.Payload) (hT : item2.CreatedAt = item.CreatedAt) :
    issueCommentEvent env2 item2 w2 = Res.ok (avatar2, text) w3 := by
  cases hPl : item.Payload with
  | none => simp [issueCommentEvent, hg1, hPl] at h
  | some p =>
    rw [hPl] at hP
    cases h0 : p.Issue <;> cases h1 : p.Comment <;> simp [issueCommentEvent, hg1, hPl, h0, h1] at h
    all_goals simp [issueCommentEvent, hg2, hP, hT, h0, h1, h]

theorem issuesEvent_transfer (env env2 : Env) (item item2 : NewsFeed) (w w1 w2 w3 : World)
    (user repo avatar avatar2 text : String)
    (h : issuesEvent env item w = Res.ok (avatar, text) w1)
    (hg1 : getFeedBaseInfoAndPrintAvatar env item w = Res.ok (user, repo, avatar) w1)
    (hg2 : getFeedBaseInfoAndPrintAvatar env2 item2 w2 = Res.ok (user, repo, avatar2) w3)
    (hP : item2.Payload = item.Payload) (hT : item2.CreatedAt = item.CreatedAt) :
    issuesEvent env2 item2 w2 = Res.ok (avatar2, text) w3 := by
  cases hPl : item.Payload with
  | none => simp [issuesEvent, hg1, hPl] at h
  | some p =>
    rw [hPl] at hP
    cases h0 : p.Issue <;> simp [issuesEvent, hg1, hPl, h0] at h
    all_goals simp [issuesEvent, hg2, hP, hT, h0, h]

theorem commitCommentEvent_transfer (env env2 : Env) (item item2 : NewsFeed) (w w1 w2 w3 : World)
    (user repo avatar avatar2 text : String)
    (h : commitCommentEvent env item w = Res.ok (avatar, text) w1)
    (hg1 : getFeedBaseInfoAndPrintAvatar env item w = Res.ok (user, repo, avatar) w1)
    (hg2 : getFeedBaseInfoAndPrintAvatar env2 item2 w2 = Res.ok (user, repo, avatar2) w3)
    (hP : item2.Payload = item.Payload) (hT : item2.CreatedAt = item.CreatedAt) :
    commitCommentEvent env2 item2 w2 = Res.ok (avatar2, text) w3 := by
  cases hPl : item.Payload with
  | none => simp [commitCommentEvent, hg1, hPl] at h
  | some p =>
    rw [hPl] at hP
    cases h0 : p.Comment <;> simp [commitCommentEvent, hg1, hPl, h0] at h
    all_goals simp [commitCommentEvent, hg2, hP, hT, h0, h]

theorem watchEvent_transfer (env env2 : Env) (item item2 : NewsFeed) (w w1 w2 w3 : World)
    (user repo avatar avatar2 text : String)
    (h : watchEvent env item w = Res.ok (avatar, text) w1)
    (hg1 : getFeedBaseInfoAndPrintAvatar env item w = Res.ok (user, repo, avatar) w1)
    (hg2 : getFeedBaseInfoAndPrintAvatar env2 item2 w2 = Res.ok (user, repo, avatar2) w3)
    (_hP : item2.Payload = item.Payload) (hT : item2.CreatedAt = item.CreatedAt) :
    watchEvent env2 item2 w2 = Res.ok (avatar2, text) w3 := by
  simp [watchEvent, hg1] at h
  simp [watchEvent, hg2, hT, h]

theorem forkEvent_transfer (env env2 : Env) (item item2 : NewsFeed) (w w1 w2 w3 : World)
    (user repo avatar avatar2 text : String)
    (h : forkEvent env item w = Res.ok (avatar, text) w1)
    (hg1 : getFeedBaseInfoAndPrintAvatar env item w = Res.ok (user, repo, avatar) w1)
    (hg2 : getFeedBaseInfoAndPrintAvatar env2 item2 w2 = Res.ok (user, repo, avatar2) w3)
    (_hP : item2.Payload = item.Payload) (hT : item2.CreatedAt = item.CreatedAt) :
    forkEvent env2 item2 w2 = Res.ok (avatar2, text) w3 := by
  simp [forkEvent, hg1] at h
  simp [forkEvent, hg2, hT, h]

theorem deleteEvent_transfer (env env2 : Env) (item item2 : NewsFeed) (w w1 w2 w3 : World)
    (user repo avatar avatar2 text : String)
    (h : deleteEvent env item w = Res.ok (avatar, text) w1)
    (hg1 : getFeedBaseInfoAndPrintAvatar env item w = Res.ok (user, repo, avatar) w1)
    (hg2 : getFeedBaseInfoAndPrintAvatar env2 item2 w2 = Res.ok (user, repo, avatar2) w3)
    (hP : item2.Payload = item.Payload) (hT : item2.CreatedAt = item.CreatedAt) :
    deleteEvent env2 item2 w2 = Res.ok (avatar2, text) w3 := by
  cases hPl : item.Payload with
  | none => simp [deleteEvent, hg1, hPl] at h
  | some p =>
    rw [hPl] at hP
    simp [deleteEvent, hg1, hPl] at h
    simp [deleteEvent, hg2, hP, hT, h]

theorem pushEvent_transfer (env env2 : Env) (item item2 : NewsFeed) (w w1 w2 w3 : World)
    (user repo avatar avatar2 text : String)
    (h : pushEvent env item w = Res.ok (avatar, text) w1)
    (hg1 : getFeedBaseInfoAndPrintAvatar env item w = Res.ok (user, repo, avatar) w1)
    (hg2 : getFeedBaseInfoAndPrintAvatar env2 item2 w2 = Res.ok (user, repo, avatar2) w3)
    (hP : item2.Payload = item.Payload) (hT : item2.CreatedAt = item.CreatedAt) :
    pushEvent env2 item2 w2 = Res.ok (avatar2, text) w3 := by
  cases hPl : item.Payload with
  | none => simp [pushEvent, hg1, hPl] at h
  | some p =>
    rw [hPl] at hP
    simp [pushEvent, hg1, hPl] at h
    simp [pushEvent, hg2, hP, hT, h]

theorem createEvent_transfer (env env2 : Env) (item item2 : NewsFeed) (w w1 w2 w3 : World)
    (user repo avatar avatar2 text : String)
    (h : createEvent env item w = Res.ok (avatar, text) w1)
    (hg1 : getFeedBaseInfoAndPrintAvatar env item w = Res.ok (user, repo, avatar) w1)
    (hg2 : getFeedBaseInfoAndPrintAvatar env2 item2 w2 = Res.ok (user, repo, avatar2) w3)
    (hP : item2.Payload = item.Payload) (hT : item2.CreatedAt = item.CreatedAt) :
    createEvent env2 item2 w2 = Res.ok (avatar2, text) w3 := by
  cases hPl : item.Payload with
  | none => simp [createEvent, hg1, hPl] at h
  | some p =>
    rw [hPl] at hP
    by_cases hs : p.RefType = "repository" <;> simp [createEvent, hg1, hPl, hs] at h
    all_goals simp [createEvent, hg2, hP, hT, hs, h]

theorem publicEvent_transfer (env env2 : Env) (item item2 : NewsFeed) (w w1 w2 w3 : World)
    (user repo avatar avatar2 text : String)
    (h : publicEvent env item w = Res.ok (avatar, text) w1)
    (hg1 : getFeedBaseInfoAndPrintAvatar env item w = Res.ok (user, repo, avatar) w1)
    (hg2 : getFeedBaseInfoAndPrintAvatar env2 item2 w2 = Res.ok (user, repo, avatar2) w3)
    (_hP : item2.Payload = item.Payload) (hT : item2.CreatedAt = item.CreatedAt) :
    publicEvent env2 item2 w2 = Res.ok (avatar2, text) w3 := by
  simp [publicEvent, hg1] at h
  simp [publicEvent, hg2, hT, h]

theorem memberEvent_transfer (env env2 : Env) (item item2 : NewsFeed) (w w1 w2 w3 : World)
    (user repo avatar avatar2 text : String)
    (h : memberEvent env item w = Res.ok (avatar, text) w1)
    (hg1 : getFeedBaseInfoAndPrintAvatar env item w = Res.ok (user, repo, avatar) w1)
    (hg2 : getFeedBaseInfoAndPrintAvatar env2 item2 w2 = Res.ok (user, repo, avatar2) w3)
    (hP : item2.Payload = item.Payload) (hT : item2.CreatedAt = item.CreatedAt) :
    memberEvent env2 item2 w2 = Res.ok (avatar2, text) w3 := by
  cases hPl : item.Payload with
  | none => simp [memberEvent, hg1, hPl] at h
  | some p =>
    rw [hPl] at hP
    cases h0 : p.Member <;> simp [memberEvent, hg1, hPl, h0] at h
    all_goals simp [memberEvent, hg2, hP, hT, h0, h]

theorem dispatch_transfer (env env2 : Env) (event : String) (item item2 : NewsFeed)
    (w w1 w2 w3 : World) (user repo avatar avatar2 text : String) (hk : event ∈ knownTags)
    (h : dispatch env event item w = Res.ok (avatar, text) w1)
    (hg1 : getFeedBaseInfoAndPrintAvatar env item w = Res.ok (user, repo, avatar) w1)
    (hg2 : getFeedBaseInfoAndPrintAvatar env2 item2 w2 = Res.ok (user, repo, avatar2) w3)
    (hP : item2.Payload = item.Payload) (hT : item2.CreatedAt = item.CreatedAt) :
    dispatch env2 event item2 w2 = Res.ok (avatar2, text) w3 := by
  simp only [knownTags, List.mem_cons, List.mem_singleton, List.mem_nil_iff, or_false] at hk
  rcases hk with hk | hk | hk | hk | hk | hk | hk | hk | hk | hk | hk | hk <;> subst hk
  · exact PRReviewEvent_transfer env env2 item item2 w w1 w2 w3 user repo avatar avatar2 text h
      hg1 hg2 hP hT
  · exact PREvent_transfer env env2 item item2 w w1 w2 w3 user repo avatar avatar2 text h
      hg1 hg2 hP hT
  · exact issueCommentEvent_transfer env env2 item item2 w w1 w2 w3 user repo avatar avatar2 text h
      hg1 hg2 hP hT
  · exact issuesEvent_transfer env env2 item item2 w w1 w2 w3 user repo avatar avatar2 text h
      hg1 hg2 hP hT
  · exact commitCommentEvent_transfer env env2 item item2 w w1 w2 w3 user repo avatar avatar2 text h
      hg1 hg2 hP hT
  · exact watchEvent_transfer env env2 item item2 w w1 w2 w3 user repo avatar avatar2 text h
      hg1 hg2 hP hT
  · exact forkEvent_transfer env env2 item item2 w w1 w2 w3 user repo avatar avatar2 text h
      hg1 hg2 hP hT
  · exact deleteEvent_transfer env env2 item item2 w w1 w2 w3 user repo avatar avatar2 text h
      hg1 hg2 hP hT
  · exact pushEvent_transfer env env2 item item2 w w1 w2 w3 user repo avatar avatar2 text h
      hg1 hg2 hP hT
  · exact createEvent_transfer env env2 item item2 w w1 w2 w3 user repo avatar avatar2 text h
      hg1 hg2 hP hT
  · exact publicEvent_transfer env env2 item item2 w w1 w2 w3 user repo avatar avatar2 text h
      hg1 hg2 hP hT
  · exact memberEvent_transfer env env2 item item2 w w1 w2 w3 user repo avatar avatar2 text h
      hg1 hg2 hP hT

/-! ## C12: an empty avatar URL -/

/-- C12: for every item of a known tag whose actor has the empty avatar URL,
`getFeedBaseInfoAndPrintAvatar` leaves the trace unchanged (no URL is fetched, the
encoder is not called) and the avatar string it returns is empty. Whatever the
renderer of the tag returns then has the empty avatar and an unchanged trace, and
its text is the usual one: a non-empty text with login and repo name, the very
text that rendering returns for the same item with any avatar URL, in any
environment in which that avatar is available. The renderer returns whenever the
required records are present. -/
theorem empty_avatar_url (env : Env) (event : String) (item : NewsFeed) (w : World)
    (actor : Actor) (hk : event ∈ knownTags) (hA : item.Actor = some actor)
    (hu : actor.AvatarURL = "") :
    (getFeedBaseInfoAndPrintAvatar env item w =
      match item.Repo with
      | some repo => Res.ok (actor.Login, repo.Name, "") w
      | none => Res.panic w) ∧
    (∀ avatar text w1, dispatch env event item w = Res.ok (avatar, text) w1 →
      avatar = "" ∧ w1 = w ∧ text ≠ "" ∧ Contains text actor.Login ∧
      (∀ repo, item.Repo = some repo → Contains text repo.Name) ∧
      ∀ (env2 : Env) (url : String) (w2 : World),
        avatarAvailable env2 { actor with AvatarURL := url } = true →
        ∃ avatar2 w3,
          dispatch env2 event (withAvatarURL item url) w2 = Res.ok (avatar2, text) w3) ∧
    (requiredPresent event item = true →
      ∃ text, dispatch env event item w = Res.ok ("", text) w) := by
  have hg : getFeedBaseInfoAndPrintAvatar env item w =
      match item.Repo with
      | some repo => Res.ok (actor.Login, repo.Name, "") w
      | none => Res.panic w := by
    rw [getFeedBaseInfoAndPrintAvatar_eq, hA]
    cases hR : item.Repo with
    | none => rfl
    | some repo => simp [hu]
  have hinv : ∀ avatar text w1, dispatch env event item w = Res.ok (avatar, text) w1 →
      ∃ repo, item.Repo = some repo ∧ avatar = "" ∧ w1 = w ∧
        getFeedBaseInfoAndPrintAvatar env item w = Res.ok (actor.Login, repo.Name, avatar) w1 := by
    intro avatar text w1 h
    obtain ⟨u, r, h2⟩ := dispatch_ok_inv env event item w avatar text w1 hk h
    cases hR : item.Repo with
    | none =>
      rw [hg, hR] at h2
      cases h2
    | some repo =>
      have h3 := h2
      rw [hg, hR] at h3
      cases h3
      exact ⟨repo, rfl, rfl, rfl, h2⟩
  refine ⟨hg, ?_, ?_⟩
  · intro avatar text w1 h
    obtain ⟨repo, hR, h1, h2, hg1⟩ := hinv avatar text w1 h
    refine ⟨h1, h2, ?_⟩
    have hprops : text ≠ "" ∧ Contains text actor.Login ∧ Contains text repo.Name := by
      rcases dispatch_outcome env event item w hk with
        ⟨_, _, a, r, av, t, w2, hA1, hR1, hd, hne, hc1, hc2⟩ | ⟨_, w2, hd⟩
      · rw [hA] at hA1
        rw [hR] at hR1
        cases hA1
        cases hR1
        rw [hd] at h
        cases h
        exact ⟨hne, hc1, hc2⟩
      · rw [hd] at h
        cases h
    refine ⟨hprops.1, hprops.2.1, ?_, ?_⟩
    · intro repo2 hR2
      rw [hR] at hR2
      cases hR2
      exact hprops.2.2
    · intro env2 url w2 hav
      have hA2 : (withAvatarURL item url).Actor = some { actor with AvatarURL := url } := by
        simp [withAvatarURL, hA]
      have hR2 : (withAvatarURL item url).Repo = some repo := hR
      rcases getFeedBaseInfoAndPrintAvatar_cases env2 (withAvatarURL item url) w2 with
        ⟨hb, _⟩ | ⟨_, a2, r2, av2, w3, hA3, hR3, hg2⟩
      · simp [baseOk, hA2, hR2, hav] at hb
      · rw [hA2] at hA3
        rw [hR2] at hR3
        cases hA3
        cases hR3
        exact ⟨av2, w3, dispatch_transfer env env2 event item (withAvatarURL item url) w w1 w2 w3
          actor.Login repo.Name avatar av2 text hk h hg1 hg2 rfl rfl⟩
  · intro hreq
    rcases dispatch_outcome env event item w hk with
      ⟨_, _, a, r, av, t, w2, _, _, hd, _⟩ | ⟨hn, w2, hd⟩
    · obtain ⟨_, _, h1, h2, _⟩ := hinv av t w2 hd
      subst h1
      subst h2
      exact ⟨t, hd⟩
    · rcases hn with h3 | h3
      · rw [hreq] at h3
        cases h3
      · cases hR : item.Repo with
        | none => simp [requiredPresent, hA, hR] at hreq
        | some repo => simp [baseOk, hA, hR, avatarAvailable, hu] at h3

/-- Witness of `empty_avatar_url`: the WatchEvent of alice without avatar URL, in
an environment whose network is down. -/
theorem empty_avatar_url_witness :
    ∃ text, dispatch offlineEnv "WatchEvent" (aliceItem "") World.init
      = Res.ok ("", text) World.init :=
  (empty_avatar_url offlineEnv "WatchEvent" (aliceItem "") World.init _ (by decide) rfl
    rfl).2.2 (by decide)

theorem empty_avatar_url_eval :
    dispatch offlineEnv "WatchEvent" (aliceItem "") World.init
      = Res.ok ("", "alice starred alice/demo \x07 at T \n\n") World.init ∧
    dispatch onlineEnv "WatchEvent" (withAvatarURL (aliceItem "") "http://x/a.png") World.init
      = Res.ok ("\x1b]1337;File=inline=1;width=32px;height=32px:/w==\x07",
          "alice starred alice/demo \x07 at T \n\n")
          { stdout := "", fetched := ["http://x/a.png"], encoded := 1 } := by
  decide

/-! ## C14: the text of a DeleteEvent -/

/-- C14 fails as stated: the text of bob's DeleteEvent of branch `old` is not
`"bob deleted branch old at bob/libT"` followed only by newlines. -/
theorem deleteEvent_text_counterexample :
    deleteEvent onlineEnv (refItem "DeleteEvent" "branch" "old") World.init
      = Res.ok ("", "bob deleted branch old at \x07 at bob/libT\n\n") World.init ∧
    ¬ ∃ n, "bob deleted branch old at \x07 at bob/libT\n\n"
      = "bob" ++ " deleted branch " ++ "old" ++ " at " ++ "bob/lib" ++ "T" ++ newlines n := by
  refine ⟨by decide, ?_⟩
  rintro ⟨n, hn⟩
  have hd := congrArg String.data hn
  have hmem : '\x07' ∈ ("bob deleted branch old at \x07 at bob/libT\n\n").data := by decide
  rw [hd] at hmem
  simp only [String.data_append, newlines, List.mem_append, List.mem_replicate] at hmem
  rcases hmem with h | h
  · revert h
    decide
  · exact absurd h.2 (by decide)

/-- C14 (as amended): for every DeleteEvent item with actor login `u`, payload ref
`b`, repo name `r` and creation time `T`, every text returned by `deleteEvent` is
exactly `u ++ " deleted branch " ++ b ++ " at " ++ BEL ++ " at " ++ r ++ T ++ "\n\n"`:
the BEL piece of the template comes before the repo name, which is immediately
followed by the timestamp, and the text ends with two newlines. The text is
returned whenever the avatar is available. -/
theorem deleteEvent_text (env : Env) (item : NewsFeed) (w : World) (actor : Actor) (repo : Repo)
    (payload : Payload) (hA : item.Actor = some actor) (hR : item.Repo = some repo)
    (hP : item.Payload = some payload) :
    (∀ avatar text w1, deleteEvent env item w = Res.ok (avatar, text) w1 →
      text = actor.Login ++ " deleted branch " ++ payload.Ref ++ " at \x07 at " ++ repo.Name
        ++ item.CreatedAt ++ "\n\n") ∧
    (avatarAvailable env actor = true → ∃ avatar w1, deleteEvent env item w =
      Res.ok (avatar, actor.Login ++ " deleted branch " ++ payload.Ref ++ " at \x07 at "
        ++ repo.Name ++ item.CreatedAt ++ "\n\n") w1) := by
  rcases getFeedBaseInfoAndPrintAvatar_cases env item w with
    ⟨hb, w1, h⟩ | ⟨hb, a, r, av, w1, hA1, hR1, h⟩
  · constructor
    · intro avatar text w2 h2
      simp [deleteEvent, h] at h2
    · intro hav
      simp [baseOk, hA, hR, hav] at hb
  · rw [hA] at hA1
    rw [hR] at hR1
    cases hA1
    cases hR1
    constructor
    · intro avatar text w2 h2
      simp [deleteEvent, h, hP] at h2
      exact h2.1.2.symm
    · intro _
      exact ⟨av, w1, by simp [deleteEvent, h, hP]⟩

/-- Witness of `deleteEvent_text`: bob deletes the branch `old`. -/
theorem deleteEvent_text_witness :
    ∃ avatar w1, deleteEvent onlineEnv (refItem "DeleteEvent" "branch" "old") World.init =
      Res.ok (avatar, "bob" ++ " deleted branch " ++ "old" ++ " at \x07 at " ++ "bob/lib"
        ++ "T" ++ "\n\n") w1 :=
  (deleteEvent_text onlineEnv (refItem "DeleteEvent" "branch" "old") World.init _ _ _ rfl rfl
    rfl).2 (by decide)

/-! ## C15: what `output` writes -/

/-- C15: for every avatar and content string, when the filter does not suppress
the event (the exclude string is empty or does not match, and the include string
is empty or matches), `output` appends to standard output exactly the avatar
immediately followed by the content, nothing between or after them, and changes
nothing else; in particular when include and exclude are both empty. -/
theorem output_writes (env : Env) (avatar content incl excl : String) (w : World)
    (hex : excl = "" ∨ env.WildcardPatternMatch content ("*" ++ excl ++ "*") = false)
    (hin : incl = "" ∨ env.WildcardPatternMatch content ("*" ++ incl ++ "*") = true) :
    output env avatar content incl excl w
      = Res.ok () { stdout := w.stdout ++ avatar ++ content, fetched := w.fetched,
                    encoded := w.encoded } ∧
    output env avatar content "" "" w
      = Res.ok () { stdout := w.stdout ++ avatar ++ content, fetched := w.fetched,
                    encoded := w.encoded } := by
  have h0 : ¬ 0 < len "" := by
    rw [len_pos_iff]
    simp
  constructor
  · have h1 : (decide (len excl > 0) && env.WildcardPatternMatch content ("*" ++ excl ++ "*"))
        = false := by
      rcases hex with h | h
      · subst h
        simp [h0]
      · simp [h]
    have h2 : (decide (len incl > 0) && !env.WildcardPatternMatch content ("*" ++ incl ++ "*"))
        = false := by
      rcases hin with h | h
      · subst h
        simp [h0]
      · simp [h]
    unfold output
    rw [h1, h2]
    simp only [Bool.or_self, Bool.false_eq_true, if_false, writeStdout, String.append_assoc]
  · simp only [output, h0, decide_False, Bool.false_and, Bool.or_self, Bool.false_eq_true,
      if_false, writeStdout, String.append_assoc, gt_iff_lt]

/-- Witness of `output_writes`: no filter configured. -/
theorem output_writes_witness :
    output onlineEnv "img" "text\n" "" "" World.init
      = Res.ok () { stdout := "" ++ "img" ++ "text\n", fetched := [], encoded := 0 } :=
  (output_writes onlineEnv "img" "text\n" "" "" World.init (Or.inl rfl) (Or.inl rfl)).1


/-! ## C13: the include filter -/

theorem globMatch_literal_star (inc : List Char) (h1 : '*' ∉ inc) (h2 : '?' ∉ inc)
    (t : List Char) : globMatch (inc ++ ['*']) t = true ↔ inc <+: t := by
  induction inc generalizing t with
  | nil =>
    simp only [List.nil_append, globMatch, if_true, List.any_eq_true, List.mem_tails,
      List.nil_prefix, iff_true]
    exact ⟨[], List.nil_suffix, rfl⟩
  | cons c cs ih =>
    have hc1 : c ≠ '*' := fun e => h1 (by simp [e])
    have hc2 : c ≠ '?' := fun e => h2 (by simp [e])
    have hcs1 : '*' ∉ cs := fun e => h1 (by simp [e])
    have hcs2 : '?' ∉ cs := fun e => h2 (by simp [e])
    cases t with
    | nil => simp [globMatch, hc1]
    | cons x xs =>
      simp only [List.cons_append, globMatch, hc1, if_false, Bool.and_eq_true, Bool.or_eq_true,
        decide_eq_true_eq, hc2, false_or, List.append_eq, ih hcs1 hcs2 xs, List.cons_prefix_cons]

theorem globMatch_star_literal_star (inc : List Char) (h1 : '*' ∉ inc) (h2 : '?' ∉ inc)
    (s : List Char) : globMatch ('*' :: (inc ++ ['*'])) s = true ↔ inc <:+: s := by
  simp only [globMatch, if_true, List.any_eq_true, List.mem_tails]
  constructor
  · rintro ⟨t, hts, hm⟩
    exact ((globMatch_literal_star inc h1 h2 t).1 hm).isInfix.trans hts.isInfix
  · intro hi
    obtain ⟨t, hp, hs⟩ := List.infix_iff_prefix_suffix.1 hi
    exact ⟨t, hs, (globMatch_literal_star inc h1 h2 t).2 hp⟩

theorem wildcardPatternMatch_contains (content incl : String) (h1 : '*' ∉ incl.data)
    (h2 : '?' ∉ incl.data) :
    wildcardPatternMatch content ("*" ++ incl ++ "*") = true ↔ Contains content incl := by
  have hd : ("*" ++ incl ++ "*").data = '*' :: (incl.data ++ ['*']) := by
    simp [String.data_append]
  unfold wildcardPatternMatch Contains
  rw [hd]
  exact globMatch_star_literal_star incl.data h1 h2 content.data

/-- C13: with the glob matcher of the filter, the exclude string empty and a
non-empty include string that holds no wildcard character (`*`, `?`): `output`
appends the avatar and the content to standard output when the content contains
the include string as a substring, and writes nothing when it does not. The test
made is the glob match of the content against `"*" ++ include ++ "*"`. -/
theorem output_include (env : Env) (avatar content incl : String) (w : World)
    (hm : env.WildcardPatternMatch = wildcardPatternMatch) (hne : incl ≠ "")
    (h1 : '*' ∉ incl.data) (h2 : '?' ∉ incl.data) :
    (env.WildcardPatternMatch content ("*" ++ incl ++ "*") = true ↔ Contains content incl) ∧
    (Contains content incl → output env avatar content incl "" w
      = Res.ok () { stdout := w.stdout ++ avatar ++ content, fetched := w.fetched,
                    encoded := w.encoded }) ∧
    (¬ Contains content incl → output env avatar content incl "" w = Res.ok () w) := by
  have hiff := wildcardPatternMatch_contains content incl h1 h2
  have h0 : ¬ 0 < len "" := by
    rw [len_pos_iff]
    simp
  have hl : 0 < len incl := (len_pos_iff incl).2 hne
  refine ⟨by rw [hm]; exact hiff, ?_, ?_⟩
  · intro hc
    have ht : env.WildcardPatternMatch content ("*" ++ incl ++ "*") = true := by
      rw [hm]
      exact hiff.2 hc
    unfold output
    rw [ht]
    simp only [gt_iff_lt, h0, hl, decide_False, decide_True, Bool.false_and, Bool.not_true,
      Bool.and_false, Bool.or_self, Bool.false_eq_true, if_false, writeStdout,
      String.append_assoc]
  · intro hc
    have hf : env.WildcardPatternMatch content ("*" ++ incl ++ "*") = false := by
      rw [hm]
      cases hv : wildcardPatternMatch content ("*" ++ incl ++ "*") with
      | false => rfl
      | true => exact absurd (hiff.1 hv) hc
    unfold output
    rw [hf]
    simp only [gt_iff_lt, h0, hl, decide_False, decide_True, Bool.false_and, Bool.not_false,
      Bool.and_true, Bool.or_true, if_true]

/-- Witness of `output_include`: include `"foo"`, a content that holds it. -/
theorem output_include_witness :
    Contains "a foo b" "foo" ∧
    output onlineEnv "img" "a foo b" "foo" "" World.init
      = Res.ok () { stdout := "" ++ "img" ++ "a foo b", fetched := [], encoded := 0 } :=
  ⟨by decide, (output_include onlineEnv "img" "a foo b" "foo" World.init rfl (by decide)
    (by decide) (by decide)).2.1 (by decide)⟩

theorem output_include_eval :
    output onlineEnv "img" "a foo b" "foo" "" World.init
      = Res.ok () { stdout := "imga foo b", fetched := [], encoded := 0 } ∧
    output onlineEnv "img" "a fo b" "foo" "" World.init = Res.ok () World.init := by
  decide

/-! ## C17: a sufficient precondition for rendering -/

/-- C17: for every item of a known tag whose actor, repo and payload are present,
whose avatar URL is empty and whose tag-required sub-records are present
(pull_request for PullRequestReviewCommentEvent and PullRequestEvent; issue and
comment for IssueCommentEvent; issue for IssuesEvent; comment for
CommitCommentEvent; member for MemberEvent; none for the six other tags), the
renderer of the tag does not panic: it returns a text, with the empty avatar and
the trace unchanged, whatever the other optional sub-records are. -/
theorem dispatch_total (env : Env) (event : String) (item : NewsFeed) (w : World)
    (actor : Actor) (repo : Repo) (payload : Payload) (hk : event ∈ knownTags)
    (hA : item.Actor = some actor) (hR : item.Repo = some repo)
    (hP : item.Payload = some payload) (hu : actor.AvatarURL = "")
    (hpr : event = "PullRequestReviewCommentEvent" ∨ event = "PullRequestEvent" →
      payload.PullRequest ≠ none)
    (hic : event = "IssueCommentEvent" → payload.Issue ≠ none ∧ payload.Comment ≠ none)
    (hi : event = "IssuesEvent" → payload.Issue ≠ none)
    (hc : event = "CommitCommentEvent" → payload.Comment ≠ none)
    (hm : event = "MemberEvent" → payload.Member ≠ none) :
    ∃ text, dispatch env event item w = Res.ok ("", text) w := by
  have hreq : requiredPresent event item = true := by
    simp only [requiredPresent, hA, hR, hP, Option.isSome_some, Bool.and_self, Bool.true_and]
    split
    · rfl
    · unfold payloadRequired
      split
      · rename_i h
        exact Option.isSome_iff_ne_none.2 (hpr h)
      · split
        · rename_i h
          simp [Option.isSome_iff_ne_none, hic h]
        · split
          · rename_i h
            exact Option.isSome_iff_ne_none.2 (hi h)
          · split
            · rename_i h
              exact Option.isSome_iff_ne_none.2 (hc h)
            · split
              · rename_i h
                exact Option.isSome_iff_ne_none.2 (hm h)
              · rfl
  have hg : getFeedBaseInfoAndPrintAvatar env item w = Res.ok (actor.Login, repo.Name, "") w := by
    rw [getFeedBaseInfoAndPrintAvatar_eq, hA, hR]
    simp [hu]
  rcases dispatch_outcome env event item w hk with
    ⟨_, _, a, r, av, t, w2, _, _, hd, _⟩ | ⟨hn, w2, hd⟩
  · obtain ⟨u1, r1, h2⟩ := dispatch_ok_inv env event item w av t w2 hk hd
    rw [hg] at h2
    cases h2
    exact ⟨t, hd⟩
  · rcases hn with h3 | h3
    · rw [hreq] at h3
      cases h3
    · simp [baseOk, hA, hR, avatarAvailable, hu] at h3

/-- Witness of `dispatch_total`: a comment of bob on a plain issue; the issue has
no pull-request reference and the payload no forkee, pull_request or member. -/
theorem dispatch_total_witness :
    ∃ text, dispatch offlineEnv "IssueCommentEvent"
      (bobItem "IssueCommentEvent" none
        (some { Number := "8", Title := "Bug", PullRequest := none })
        (some { Body := "looks good" })) World.init = Res.ok ("", text) World.init :=
  dispatch_total offlineEnv "IssueCommentEvent"
    (bobItem "IssueCommentEvent" none
      (some { Number := "8", Title := "Bug", PullRequest := none })
      (some { Body := "looks good" })) World.init _ _ _ (by decide) rfl rfl rfl rfl
    (by decide) (by decide) (by decide) (by decide) (by decide)


/-! ## C16: decoding the pull-request reference of an issue -/

theorem keyMatches_pull_request :
    keyMatches "pull_request" "PullRequest" = false ∧
    keyMatches "pull_request" "pull_request" = true ∧
    keyMatches "pullrequest" "PullRequest" = true := by
  decide

theorem decodeIssue_PullRequest_unchanged (x : Issue) (kvs : List (String × JSON))
    (h : ∀ kv ∈ kvs, keyMatches kv.1 "PullRequest" = false) :
    (decodeIssue x kvs).PullRequest = x.PullRequest := by
  unfold decodeIssue
  induction kvs generalizing x with
  | nil => rfl
  | cons kv rest ih =>
    have h1 : keyMatches kv.1 "PullRequest" = false := h kv (by simp)
    have h2 : ∀ kv2 ∈ rest, keyMatches kv2.1 "PullRequest" = false := fun kv2 hm =>
      h kv2 (by simp [hm])
    rw [List.foldl_cons, ih _ h2]
    unfold Issue.setField
    split
    · rfl
    · split
      · rfl
      · simp [h1]

/-- C16 (the code at the failing input): the feed object of an IssueCommentEvent
whose `payload.issue` carries a `pull_request` member decodes to an issue whose
`PullRequest` pointer is nil, because the untagged field is matched by its Go
name and the key `pull_request` is not `PullRequest` under case folding; the
rendered group is then `"issue"`, not `"pull request"`. -/
theorem decoded_issue_reference :
    (decodeNewsFeed (commentEventJSON prIssueJSON)).Payload.bind (fun p => p.Issue)
      = some { Number := "", Title := "Bug", PullRequest := none } ∧
    dispatch onlineEnv "IssueCommentEvent" (decodeNewsFeed (commentEventJSON prIssueJSON))
      World.init
      = Res.ok ("", "bob commented on issue  on bob/lib \n looks good \x07 at T\n")
          World.init := by
  decide


end Gitfeed
